import Mathlib

/-!
Verification development for the mcast client SDK (TypeScript).

The embedding models `src/client.ts` (the revision with connection-promise
coalescing, the `isDisconnecting` flag and the promise-returning
`disconnect`), together with the JSON envelope codec used by `publish` and
by the subscriber message handler, the topic registry used by
`subscribe`/`unsubscribe`, and the per-role connection state machine.

JavaScript's builtin `JSON.stringify` / `JSON.parse` are external to the
repository; they are modelled here by an executable codec over a JSON value
type (`Json`): integers for the numeric leaves, and the standard one-char
escapes for quote, backslash, newline, tab and carriage return (other
characters are carried verbatim; `JSON.stringify` emits no insignificant
whitespace, and the model's parser accepts exactly such frames).
-/

namespace Mcast

/-- JSON values (payloads are `Record<string, any>`, i.e. `Json.obj`). -/
inductive Json where
  | null : Json
  | bool (b : Bool) : Json
  | num (i : Int) : Json
  | str (s : String) : Json
  | arr (xs : List Json) : Json
  | obj (kvs : List (String × Json)) : Json

/-- Decimal digit to character. -/
def digitChar : Nat → Char
  | 0 => '0' | 1 => '1' | 2 => '2' | 3 => '3' | 4 => '4'
  | 5 => '5' | 6 => '6' | 7 => '7' | 8 => '8' | _ => '9'

/-- Character to decimal digit, if it is one. -/
def digitVal (c : Char) : Option Nat :=
  if c = '0' then some 0 else if c = '1' then some 1
  else if c = '2' then some 2 else if c = '3' then some 3
  else if c = '4' then some 4 else if c = '5' then some 5
  else if c = '6' then some 6 else if c = '7' then some 7
  else if c = '8' then some 8 else if c = '9' then some 9
  else none

/-- Big-endian decimal digits of a natural number. -/
def natDigits (n : Nat) : List Char :=
  if _h : n < 10 then [digitChar n]
  else natDigits (n / 10) ++ [digitChar (n % 10)]
decreasing_by exact Nat.div_lt_self (by omega) (by omega)

/-- Decimal rendering of an integer, as `JSON.stringify` renders an
integral number. -/
def emitInt (i : Int) : List Char :=
  if i < 0 then '-' :: natDigits i.natAbs else natDigits i.toNat

/-- The escaping `JSON.stringify` applies inside string literals
(modelled for the quote, backslash and common control characters). -/
def escChar (c : Char) : List Char :=
  if c = '"' then ['\\', '"']
  else if c = '\\' then ['\\', '\\']
  else if c = '\n' then ['\\', 'n']
  else if c = '\t' then ['\\', 't']
  else if c = '\r' then ['\\', 'r']
  else [c]

/-- Escape a whole string body. -/
def escape : List Char → List Char
  | [] => []
  | c :: cs => escChar c ++ escape cs

mutual

/-- Model of `JSON.stringify` on a JSON value. -/
def emitJson : Json → List Char
  | .null => "null".data
  | .bool true => "true".data
  | .bool false => "false".data
  | .num i => emitInt i
  | .str s => '"' :: (escape s.data ++ ['"'])
  | .arr xs => '[' :: (emitItems xs ++ [']'])
  | .obj kvs => '{' :: (emitMembers kvs ++ ['}'])

/-- Comma-joined array elements. -/
def emitItems : List Json → List Char
  | [] => []
  | [x] => emitJson x
  | x :: y :: xs => emitJson x ++ ',' :: emitItems (y :: xs)

/-- Comma-joined object members. -/
def emitMembers : List (String × Json) → List Char
  | [] => []
  | [(k, v)] => '"' :: (escape k.data ++ '"' :: ':' :: emitJson v)
  | (k, v) :: m :: kvs =>
      '"' :: (escape k.data ++ '"' :: ':' :: emitJson v)
        ++ ',' :: emitMembers (m :: kvs)

end

/-- Undo a one-character escape. -/
def unescChar (c : Char) : Option Char :=
  if c = '"' then some '"'
  else if c = '\\' then some '\\'
  else if c = 'n' then some '\n'
  else if c = 't' then some '\t'
  else if c = 'r' then some '\r'
  else none

/-- Parse a string body up to the closing quote, undoing escapes. -/
def parseStrChars : List Char → Option (List Char × List Char)
  | [] => none
  | c :: rest =>
    if c = '"' then some ([], rest)
    else if c = '\\' then
      match rest with
      | [] => none
      | e :: rest' =>
        match unescChar e, parseStrChars rest' with
        | some d, some (l, r) => some (d :: l, r)
        | _, _ => none
    else
      match parseStrChars rest with
      | some (l, r) => some (c :: l, r)
      | none => none

/-- Greedily accumulate decimal digits. -/
def parseDigitsAux : List Char → Nat → Nat × List Char
  | [], acc => (acc, [])
  | c :: rest, acc =>
    match digitVal c with
    | some d => parseDigitsAux rest (acc * 10 + d)
    | none => (acc, c :: rest)

/-- Does the input start with a decimal digit? -/
def leadDigit : List Char → Bool
  | [] => false
  | c :: _ => (digitVal c).isSome

/-- Parse a nonempty digit run as a natural number. -/
def parseNatNum (cs : List Char) : Option (Nat × List Char) :=
  if leadDigit cs then some (parseDigitsAux cs 0) else none

/-- Parse an optionally-signed integer literal. -/
def parseNumber : List Char → Option (Int × List Char)
  | [] => none
  | c :: rest =>
    if c = '-' then (parseNatNum rest).map (fun p => (-(p.1 : Int), p.2))
    else (parseNatNum (c :: rest)).map (fun p => ((p.1 : Int), p.2))

/-- Match an expected literal suffix (`ull`, `rue`, `alse`). -/
def expectLit : List Char → List Char → Option (List Char)
  | [], cs => some cs
  | l :: ls, c :: cs => if c = l then expectLit ls cs else none
  | _ :: _, [] => none

/-- One step of value parsing; the recursive entries for array elements
and object members are passed in as `pItems` / `pMembers`. -/
def parseValStep (pItems : List Char → Option (List Json × List Char))
    (pMembers : List Char → Option (List (String × Json) × List Char))
    (cs : List Char) : Option (Json × List Char) :=
  match cs with
  | [] => none
  | c :: rest =>
    if (digitVal c).isSome ∨ c = '-' then
      match parseNumber (c :: rest) with
      | some (i, r) => some (Json.num i, r)
      | none => none
    else if c = 'n' then
      (expectLit "ull".data rest).map (fun r => (Json.null, r))
    else if c = 't' then
      (expectLit "rue".data rest).map (fun r => (Json.bool true, r))
    else if c = 'f' then
      (expectLit "alse".data rest).map (fun r => (Json.bool false, r))
    else if c = '"' then
      match parseStrChars rest with
      | some (l, r) => some (Json.str (String.mk l), r)
      | none => none
    else if c = '[' then
      match rest with
      | [] => none
      | r0 :: rtl =>
        if r0 = ']' then some (Json.arr [], rtl)
        else
          match pItems (r0 :: rtl) with
          | some (vs, r) => some (Json.arr vs, r)
          | none => none
    else if c = '{' then
      match rest with
      | [] => none
      | r0 :: rtl =>
        if r0 = '}' then some (Json.obj [], rtl)
        else
          match pMembers (r0 :: rtl) with
          | some (kvs, r) => some (Json.obj kvs, r)
          | none => none
    else none

/-- One step of the array-element loop (`pv` parses one value, `self`
continues the loop after a comma); consumes the closing bracket. -/
def parseItemsStep (pv : List Char → Option (Json × List Char))
    (self : List Char → Option (List Json × List Char))
    (cs : List Char) : Option (List Json × List Char) :=
  match pv cs with
  | none => none
  | some (v, r) =>
    match r with
    | ']' :: r' => some ([v], r')
    | ',' :: r' =>
      match self r' with
      | some (vs, r'') => some (v :: vs, r'')
      | none => none
    | _ => none

/-- One step of the object-member loop; consumes the closing brace. -/
def parseMembersStep (pv : List Char → Option (Json × List Char))
    (self : List Char → Option (List (String × Json) × List Char))
    (cs : List Char) : Option (List (String × Json) × List Char) :=
  match cs with
  | '"' :: cs' =>
    match parseStrChars cs' with
    | none => none
    | some (k, r) =>
      match r with
      | ':' :: r' =>
        match pv r' with
        | none => none
        | some (v, r'') =>
          match r'' with
          | '}' :: r3 => some ([(String.mk k, v)], r3)
          | ',' :: r3 =>
            match self r3 with
            | some (kvs, r4) => some ((String.mk k, v) :: kvs, r4)
            | none => none
          | _ => none
      | _ => none
  | _ => none

mutual

/-- Model of `JSON.parse` on one value, fuelled; returns the remainder. -/
def parseVal : Nat → List Char → Option (Json × List Char)
  | 0, _ => none
  | n + 1, cs => parseValStep (parseItemsLoop n) (parseMembersLoop n) cs

/-- One or more comma-separated array elements, consuming the closing
bracket. -/
def parseItemsLoop : Nat → List Char → Option (List Json × List Char)
  | 0, _ => none
  | n + 1, cs => parseItemsStep (parseVal n) (parseItemsLoop n) cs

/-- One or more comma-separated object members, consuming the closing
brace. -/
def parseMembersLoop : Nat → List Char → Option (List (String × Json) × List Char)
  | 0, _ => none
  | n + 1, cs => parseMembersStep (parseVal n) (parseMembersLoop n) cs

end

/-- Model of `JSON.parse` on a whole frame: the frame must be consumed
entirely, else the parse fails. -/
def parseJson (cs : List Char) : Option Json :=
  match parseVal (cs.length + 1) cs with
  | some (v, []) => some v
  | _ => none

/-- Reserved wildcard topic: `TOPIC_ALL = "_ALL_"` in `types.ts`. -/
def TOPIC_ALL : String := "_ALL_"

/-- `this.listeners[topic] ?? []` (JS object lookup). -/
def listenersFor : List (String × List Nat) → String → List Nat
  | [], _ => []
  | (k, cbs) :: rest, t => if k = t then cbs else listenersFor rest t

/-- Registering one callback under one topic: create the entry when
absent, else push (append) the callback. Callbacks are identified by
`Nat` ids; duplicates by reference are allowed. -/
def addListener : List (String × List Nat) → String → Nat → List (String × List Nat)
  | [], t, cb => [(t, [cb])]
  | (k, cbs) :: rest, t, cb =>
    if k = t then (k, cbs ++ [cb]) :: rest
    else (k, cbs) :: addListener rest t cb

/-- `subscribe`'s topic normalization: default to the wildcard, wrap a
single topic, and collapse to wildcard-only when the wildcard is among
the requested topics. -/
def normalizeTopics (topics : Option (List String)) : List String :=
  match topics with
  | none => [TOPIC_ALL]
  | some ts => if ts.contains TOPIC_ALL then [TOPIC_ALL] else ts

/-- JS property access on a parsed JSON object (first matching key). -/
def lookupField : List (String × Json) → String → Option Json
  | [], _ => none
  | (k, v) :: rest, f => if k = f then some v else lookupField rest f

/-- `msg.field` for a parsed frame. -/
def getField : Json → String → Option Json
  | .obj kvs, f => lookupField kvs f
  | _, _ => none

/-- The frame `publish(topic, payload)` sends: the payload is JSON-encoded
on its own, wrapped in a `SerializedMessage` envelope which is then
JSON-encoded itself (double encoding). -/
def publishFrame (topic : String) (payload : Json) : List Char :=
  emitJson (.obj [("topic", .str topic), ("payload", .str (String.mk (emitJson payload)))])

/-- The subscriber's `onmessage` handler: parse the outer envelope (a
failure drops the frame), resolve the callback list as specific-topic
listeners followed by wildcard listeners, and only if that list is
nonempty parse the inner payload (a failure drops the frame) and invoke
each callback with `(topic, payload)`. Returns the invocations performed.
Frames whose envelope lacks string `topic`/`payload` fields are dropped
(in JS they would index `listeners` with `undefined` and find nothing). -/
def onMessage (reg : List (String × List Nat)) (frame : List Char) :
    List (Nat × String × Json) :=
  match parseJson frame with
  | none => []
  | some msg =>
    match getField msg "topic", getField msg "payload" with
    | some (.str t), some (.str p) =>
      let cbs := listenersFor reg t ++ listenersFor reg TOPIC_ALL
      if cbs.length > 0 then
        match parseJson p.data with
        | none => []
        | some payload => cbs.map (fun cb => (cb, t, payload))
      else []
    | _, _ => []

/-- One callback invocation inside its `try`/`catch`: a thrown error is
caught (only logged through the debug channel) and does not escape. -/
def invokeIsolated (run : Nat → Except String Unit) (cb : Nat) : Except String Unit :=
  match run cb with
  | .ok _ => .ok ()
  | .error _ => .ok ()

/-- The `listeners.forEach` dispatch loop, each callback wrapped in its
isolation boundary; returns the ids invoked in order, or propagates an
error if one escaped a boundary. -/
def dispatchLoop (run : Nat → Except String Unit) : List Nat → Except String (List Nat)
  | [] => .ok []
  | cb :: rest => do
    let _ ← invokeIsolated run cb
    let l ← dispatchLoop run rest
    pure (cb :: l)

/-- `subscribe(callback, topics?)`: normalize the topics, await the
subscriber connection (`connectResult`), and only then register the
callback under each topic; a rejected connection propagates before any
registration. Returns the resulting registry and the error, if any. -/
def subscribeRun (reg : List (String × List Nat)) (connectResult : Except String Unit)
    (cb : Nat) (topics : Option (List String)) : List (String × List Nat) × Option String :=
  let topicArray := normalizeTopics topics
  match connectResult with
  | .error e => (reg, some e)
  | .ok _ => (topicArray.foldl (fun r t => addListener r t cb) reg, none)

/-- Modelled from the spec: the `ConnectionState` enum of the current
`types.ts` revision. The packaged types module contains only the earlier
five-state revision without `DISCONNECTING`, while `client.ts` uses
`ConnectionState.DISCONNECTING` and the README documents the six-state
enum; the six-state declaration itself is missing from the sources. -/
inductive ConnectionState where
  | DISCONNECTED
  | CONNECTING
  | CONNECTED
  | RECONNECTING
  | DISCONNECTING
  | ERROR
deriving DecidableEq

/-- The two connection roles of one client. -/
inductive Role where
  | publisher
  | subscriber
deriving DecidableEq

/-- A state-change notification `(state, connectionType)` as delivered to
`onStateChange` listeners. -/
abbrev Notif := ConnectionState × Role

/-- A transport handle; `readyState = 1` means open (`WebSocket.OPEN`). -/
structure Sock where
  id : Nat
  readyState : Nat
deriving DecidableEq

/-- The settlement of a connect promise: promises settle at most once. -/
inductive PSettle where
  | resolved
  | rejectedErr (msg : String)
deriving DecidableEq

/-- What a call to `connectPublisher`/`connectSubscriber` returns to its
caller: an in-flight promise (identified by id), an already-resolved
promise, or an immediate rejection. -/
inductive ConnCallRes where
  | pending (pid : Nat)
  | resolvedNow
  | rejectedNow (msg : String)
deriving DecidableEq

/-- The mutable state of one `McastClient` instance, plus bookkeeping the
proofs observe: `socketsCreated` counts transport constructions,
`pubTimers`/`subTimers` count outstanding reconnect timers, and
`promiseLog` records promise settlements (first settlement wins). -/
structure ClientModel where
  autoReconnect : Bool
  maxReconnectAttempts : Nat
  isDisconnecting : Bool
  pubState : ConnectionState
  subState : ConnectionState
  pubSocket : Option Sock
  subSocket : Option Sock
  pubReconnectAttempts : Nat
  subReconnectAttempts : Nat
  pubConnectPromise : Option Nat
  subConnectPromise : Option Nat
  promiseCounter : Nat
  socketsCreated : Nat
  pubTimers : Nat
  subTimers : Nat
  promiseLog : List (Nat × PSettle)
deriving DecidableEq

/-- `isSocketConnected`: the socket exists and `readyState === 1`. -/
def isSocketConnected : Option Sock → Bool
  | none => false
  | some s => s.readyState == 1

/-- Settle a promise: a promise that has already settled stays settled
with its first outcome (JS promise semantics). -/
def settle (log : List (Nat × PSettle)) (pid : Nat) (o : PSettle) : List (Nat × PSettle) :=
  if log.any (fun e => e.1 == pid) then log else (pid, o) :: log

/-- The recorded settlement of a promise, if any. -/
def settled (log : List (Nat × PSettle)) (pid : Nat) : Option PSettle :=
  (log.find? (fun e => e.1 == pid)).map (fun e => e.2)

/-- Settle the promise named by `pid?`, when there is one. -/
def settleOpt (log : List (Nat × PSettle)) (pid? : Option Nat) (o : PSettle) :
    List (Nat × PSettle) :=
  match pid? with
  | some pid => settle log pid o
  | none => log

/-- `getPublisherState()`. -/
def getPublisherState (m : ClientModel) : ConnectionState := m.pubState

/-- `getSubscriberState()`. -/
def getSubscriberState (m : ClientModel) : ConnectionState := m.subState

/-- `connectPublisher()`, up to its first suspension: return the existing
in-flight promise if there is one; else resolve immediately when the
socket is open; else reject when the client is disconnecting; else
transition to `CONNECTING`, construct a new transport handle, and
register a fresh in-flight promise. -/
def connectPublisher (m : ClientModel) : ConnCallRes × ClientModel × List Notif :=
  match m.pubConnectPromise with
  | some pid => (.pending pid, m, [])
  | none =>
    if isSocketConnected m.pubSocket = true then (.resolvedNow, m, [])
    else if m.isDisconnecting = true then (.rejectedNow "Client is disconnecting", m, [])
    else
      (.pending m.promiseCounter,
       { m with
          pubState := .CONNECTING,
          pubSocket := some ⟨m.socketsCreated, 0⟩,
          socketsCreated := m.socketsCreated + 1,
          pubConnectPromise := some m.promiseCounter,
          promiseCounter := m.promiseCounter + 1 },
       [(.CONNECTING, .publisher)])

/-- `connectSubscriber()`, same structure as `connectPublisher` on the
subscriber fields (it additionally installs the message handler, modelled
separately by `onMessage`). -/
def connectSubscriber (m : ClientModel) : ConnCallRes × ClientModel × List Notif :=
  match m.subConnectPromise with
  | some pid => (.pending pid, m, [])
  | none =>
    if isSocketConnected m.subSocket = true then (.resolvedNow, m, [])
    else if m.isDisconnecting = true then (.rejectedNow "Client is disconnecting", m, [])
    else
      (.pending m.promiseCounter,
       { m with
          subState := .CONNECTING,
          subSocket := some ⟨m.socketsCreated, 0⟩,
          socketsCreated := m.socketsCreated + 1,
          subConnectPromise := some m.promiseCounter,
          promiseCounter := m.promiseCounter + 1 },
       [(.CONNECTING, .subscriber)])

/-- `attemptReconnectPublisher()`: give up at the attempt ceiling or while
disconnecting; otherwise transition to `RECONNECTING`, increment the
counter and schedule the reconnect timer. -/
def attemptReconnectPublisher (m : ClientModel) : ClientModel × List Notif :=
  if m.pubReconnectAttempts ≥ m.maxReconnectAttempts ∨ m.isDisconnecting = true then (m, [])
  else
    ({ m with
        pubState := .RECONNECTING,
        pubReconnectAttempts := m.pubReconnectAttempts + 1,
        pubTimers := m.pubTimers + 1 },
     [(.RECONNECTING, .publisher)])

/-- `attemptReconnectSubscriber()`. -/
def attemptReconnectSubscriber (m : ClientModel) : ClientModel × List Notif :=
  if m.subReconnectAttempts ≥ m.maxReconnectAttempts ∨ m.isDisconnecting = true then (m, [])
  else
    ({ m with
        subState := .RECONNECTING,
        subReconnectAttempts := m.subReconnectAttempts + 1,
        subTimers := m.subTimers + 1 },
     [(.RECONNECTING, .subscriber)])

/-- The publisher socket's `onopen` handler (the transport marks the
socket open): transition to `CONNECTED`, reset the retry counter, resolve
the in-flight promise and clear it. -/
def handlePubOpen (m : ClientModel) : ClientModel × List Notif :=
  ({ m with
      pubSocket := m.pubSocket.map (fun s => { s with readyState := 1 }),
      pubState := .CONNECTED,
      pubReconnectAttempts := 0,
      promiseLog := settleOpt m.promiseLog m.pubConnectPromise .resolved,
      pubConnectPromise := none },
   [(.CONNECTED, .publisher)])

/-- The subscriber socket's `onopen` handler. -/
def handleSubOpen (m : ClientModel) : ClientModel × List Notif :=
  ({ m with
      subSocket := m.subSocket.map (fun s => { s with readyState := 1 }),
      subState := .CONNECTED,
      subReconnectAttempts := 0,
      promiseLog := settleOpt m.promiseLog m.subConnectPromise .resolved,
      subConnectPromise := none },
   [(.CONNECTED, .subscriber)])

/-- The publisher socket's `onclose` handler: record whether the role was
`CONNECTED`, transition to `DISCONNECTED`, clear the in-flight promise;
reconnect only if it was connected, auto-reconnect is on and the client is
not disconnecting; reject the (captured) promise if it was never
connected. -/
def handlePubClose (m : ClientModel) : ClientModel × List Notif :=
  let m1 := { m with
      pubSocket := m.pubSocket.map (fun s => { s with readyState := 3 }),
      pubState := ConnectionState.DISCONNECTED,
      pubConnectPromise := none }
  let s2 :=
    if m.pubState = ConnectionState.CONNECTED ∧ m.autoReconnect = true
        ∧ m.isDisconnecting = false
    then attemptReconnectPublisher m1 else (m1, [])
  let m3 :=
    if ¬ m.pubState = ConnectionState.CONNECTED
    then { s2.1 with
        promiseLog := settleOpt s2.1.promiseLog m.pubConnectPromise
          (.rejectedErr "WebSocket error: Denied") }
    else s2.1
  (m3, (ConnectionState.DISCONNECTED, Role.publisher) :: s2.2)

/-- The subscriber socket's `onclose` handler. -/
def handleSubClose (m : ClientModel) : ClientModel × List Notif :=
  let m1 := { m with
      subSocket := m.subSocket.map (fun s => { s with readyState := 3 }),
      subState := ConnectionState.DISCONNECTED,
      subConnectPromise := none }
  let s2 :=
    if m.subState = ConnectionState.CONNECTED ∧ m.autoReconnect = true
        ∧ m.isDisconnecting = false
    then attemptReconnectSubscriber m1 else (m1, [])
  let m3 :=
    if ¬ m.subState = ConnectionState.CONNECTED
    then { s2.1 with
        promiseLog := settleOpt s2.1.promiseLog m.subConnectPromise
          (.rejectedErr "WebSocket error: Denied") }
    else s2.1
  (m3, (ConnectionState.DISCONNECTED, Role.subscriber) :: s2.2)

/-- The publisher socket's `onerror` handler: transition to `ERROR`, then
reject unless the (just updated) state is `CONNECTED` — as in the source,
which re-reads `this.pubState` after setting it — and clear the in-flight
promise. Rejecting an already-settled promise is a no-op. -/
def handlePubError (m : ClientModel) (msg : String) : ClientModel × List Notif :=
  let m1 := { m with pubState := ConnectionState.ERROR }
  let m2 :=
    if ¬ m1.pubState = ConnectionState.CONNECTED
    then { m1 with
        promiseLog := settleOpt m1.promiseLog m1.pubConnectPromise
          (.rejectedErr ("WebSocket error: " ++ msg)) }
    else m1
  ({ m2 with pubConnectPromise := none }, [(ConnectionState.ERROR, Role.publisher)])

/-- The subscriber socket's `onerror` handler. -/
def handleSubError (m : ClientModel) (msg : String) : ClientModel × List Notif :=
  let m1 := { m with subState := ConnectionState.ERROR }
  let m2 :=
    if ¬ m1.subState = ConnectionState.CONNECTED
    then { m1 with
        promiseLog := settleOpt m1.promiseLog m1.subConnectPromise
          (.rejectedErr ("WebSocket error: " ++ msg)) }
    else m1
  ({ m2 with subConnectPromise := none }, [(ConnectionState.ERROR, Role.subscriber)])

/-- The publisher reconnect timer firing: the `setTimeout` body runs
`connectPublisher` only when the client is not disconnecting. -/
def pubReconnectTimerFire (m : ClientModel) : ClientModel × List Notif :=
  let m0 := { m with pubTimers := m.pubTimers - 1 }
  if m0.isDisconnecting = true then (m0, [])
  else
    let r := connectPublisher m0
    (r.2.1, r.2.2)

/-- The subscriber reconnect timer firing. -/
def subReconnectTimerFire (m : ClientModel) : ClientModel × List Notif :=
  let m0 := { m with subTimers := m.subTimers - 1 }
  if m0.isDisconnecting = true then (m0, [])
  else
    let r := connectSubscriber m0
    (r.2.1, r.2.2)

/-- `disconnect()`: set the shutdown flag; then, per role with a live
handle, transition to `DISCONNECTING`, request a close and await either
the transport's close event (which runs the connect-time `onclose`
handler) or the bounded timeout (which force-clears the handle without a
close event); finally null the handle and clear both in-flight promises.
`pubCloseFires`/`subCloseFires` say whether each transport emitted its
close event within the timeout. -/
def disconnectModel (m : ClientModel) (pubCloseFires subCloseFires : Bool) :
    ClientModel × List Notif :=
  let m0 := { m with isDisconnecting := true }
  let s1 :=
    match m0.pubSocket with
    | none => (m0, ([] : List Notif))
    | some _ =>
      let ma := { m0 with pubState := ConnectionState.DISCONNECTING }
      let sb := if pubCloseFires = true then handlePubClose ma else (ma, [])
      ({ sb.1 with pubSocket := none },
        (ConnectionState.DISCONNECTING, Role.publisher) :: sb.2)
  let s2 :=
    match s1.1.subSocket with
    | none => (s1.1, ([] : List Notif))
    | some _ =>
      let ma := { s1.1 with subState := ConnectionState.DISCONNECTING }
      let sb := if subCloseFires = true then handleSubClose ma else (ma, [])
      ({ sb.1 with subSocket := none },
        (ConnectionState.DISCONNECTING, Role.subscriber) :: sb.2)
  ({ s2.1 with pubConnectPromise := none, subConnectPromise := none },
    s1.2 ++ s2.2)

/-- The events that can act on a client: public operations triggering a
connect, transport events on either socket, reconnect timers firing, the
`.catch` of a failed reconnect-triggered connect, and `disconnect()`. -/
inductive Event where
  | pubConnect
  | subConnect
  | pubOpen
  | subOpen
  | pubClose
  | subClose
  | pubError (msg : String)
  | subError (msg : String)
  | pubTimerFire
  | subTimerFire
  | pubRetryCatch
  | subRetryCatch
  | disconnect (pubCloseFires subCloseFires : Bool)

/-- One event acting on the client state. -/
def step (e : Event) (m : ClientModel) : ClientModel × List Notif :=
  match e with
  | .pubConnect => ((connectPublisher m).2.1, (connectPublisher m).2.2)
  | .subConnect => ((connectSubscriber m).2.1, (connectSubscriber m).2.2)
  | .pubOpen => handlePubOpen m
  | .subOpen => handleSubOpen m
  | .pubClose => handlePubClose m
  | .subClose => handleSubClose m
  | .pubError msg => handlePubError m msg
  | .subError msg => handleSubError m msg
  | .pubTimerFire => pubReconnectTimerFire m
  | .subTimerFire => subReconnectTimerFire m
  | .pubRetryCatch => attemptReconnectPublisher m
  | .subRetryCatch => attemptReconnectSubscriber m
  | .disconnect p s => disconnectModel m p s

/-- Run a sequence of events. -/
def run : List Event → ClientModel → ClientModel
  | [], m => m
  | e :: es, m => run es (step e m).1

/-- `N` overlapping calls to `connectPublisher`, none of the transport
events having fired in between. -/
def connectPublisherN : Nat → ClientModel → List ConnCallRes × ClientModel
  | 0, m => ([], m)
  | n + 1, m =>
    let r := connectPublisher m
    let rest := connectPublisherN n r.2.1
    (r.1 :: rest.1, rest.2)

/-- `N` overlapping calls to `connectSubscriber`. -/
def connectSubscriberN : Nat → ClientModel → List ConnCallRes × ClientModel
  | 0, m => ([], m)
  | n + 1, m =>
    let r := connectSubscriber m
    let rest := connectSubscriberN n r.2.1
    (r.1 :: rest.1, rest.2)

/-- The client state right after the constructor, with the default
options (`autoReconnect = true`, `maxReconnectAttempts = 5`). -/
def initialModel : ClientModel where
  autoReconnect := true
  maxReconnectAttempts := 5
  isDisconnecting := false
  pubState := .DISCONNECTED
  subState := .DISCONNECTED
  pubSocket := none
  subSocket := none
  pubReconnectAttempts := 0
  subReconnectAttempts := 0
  pubConnectPromise := none
  subConnectPromise := none
  promiseCounter := 0
  socketsCreated := 0
  pubTimers := 0
  subTimers := 0
  promiseLog := []

/-- A client whose both retry counters sit at the default ceiling. -/
def exhaustedModel : ClientModel :=
  { initialModel with pubReconnectAttempts := 5, subReconnectAttempts := 5 }

/-- A client on which `disconnect()` has begun. -/
def shuttingDownModel : ClientModel :=
  { initialModel with isDisconnecting := true }

/-- A client with both roles connected (sockets open, promises settled). -/
def liveModel : ClientModel :=
  { initialModel with
      pubState := .CONNECTED
      subState := .CONNECTED
      pubSocket := some ⟨0, 1⟩
      subSocket := some ⟨1, 1⟩
      socketsCreated := 2
      promiseCounter := 2
      promiseLog := [(0, .resolved), (1, .resolved)] }

/-- The client after connect, open, then a post-open transport error on
the publisher: the error handler has run with the role `CONNECTED`. -/
def errorTrace : ClientModel :=
  run [Event.pubConnect, Event.pubOpen, Event.pubError "boom"] initialModel

/-- A client with both roles in the `ERROR` state after post-open errors. -/
def errorStateModel : ClientModel :=
  { liveModel with pubState := .ERROR, subState := .ERROR }

/-- A registry with two specific-topic callbacks and one wildcard
callback. -/
def regW : List (String × List Nat) := [("updates", [1, 2]), (TOPIC_ALL, [3])]


/-! ### Theorems -/
theorem digitVal_digitChar (d : Nat) (h : d < 10) : digitVal (digitChar d) = some d := by
  interval_cases d <;> rfl

theorem natDigits_ne_nil (n : Nat) : natDigits n ≠ [] := by
  rw [natDigits]
  split <;> simp

theorem leadDigit_natDigits (n : Nat) : ∀ rest, leadDigit (natDigits n ++ rest) = true := by
  induction n using Nat.strong_induction_on with
  | _ n ih =>
    intro rest
    by_cases h : n < 10
    · rw [natDigits, dif_pos h]
      simp [leadDigit, digitVal_digitChar n h]
    · rw [natDigits, dif_neg h, List.append_assoc]
      exact ih (n / 10) (Nat.div_lt_self (by omega) (by omega)) _

theorem parseDigitsAux_stop (rest : List Char) (acc : Nat) (h : leadDigit rest = false) :
    parseDigitsAux rest acc = (acc, rest) := by
  cases rest with
  | nil => rfl
  | cons c r =>
    have hv : digitVal c = none := by
      cases hv : digitVal c with
      | none => rfl
      | some d => simp [leadDigit, hv] at h
    simp [parseDigitsAux, hv]

theorem parseDigitsAux_natDigits (n : Nat) : ∀ acc rest,
    parseDigitsAux (natDigits n ++ rest) acc
      = parseDigitsAux rest (acc * 10 ^ (natDigits n).length + n) := by
  induction n using Nat.strong_induction_on with
  | _ n ih =>
    intro acc rest
    by_cases h : n < 10
    · rw [natDigits, dif_pos h]
      simp [parseDigitsAux, digitVal_digitChar n h]
    · rw [natDigits, dif_neg h, List.append_assoc,
        ih (n / 10) (Nat.div_lt_self (by omega) (by omega))]
      have hm : n % 10 < 10 := Nat.mod_lt _ (by omega)
      simp only [List.cons_append, parseDigitsAux, digitVal_digitChar _ hm,
        List.length_append, List.length_cons, List.length_nil]
      congr 1
      have hdm : 10 * (n / 10) + n % 10 = n := Nat.div_add_mod n 10
      have : (acc * 10 ^ (natDigits (n / 10)).length + n / 10) * 10 + n % 10
          = acc * (10 ^ (natDigits (n / 10)).length * 10) + (10 * (n / 10) + n % 10) := by
        ring
      rw [this, hdm, ← pow_succ]

theorem parseNatNum_natDigits (n : Nat) (rest : List Char) (h : leadDigit rest = false) :
    parseNatNum (natDigits n ++ rest) = some (n, rest) := by
  rw [parseNatNum, if_pos (leadDigit_natDigits n rest),
    parseDigitsAux_natDigits n 0 rest, parseDigitsAux_stop rest _ h]
  simp

theorem parseNumber_natDigits (n : Nat) (rest : List Char) (h : leadDigit rest = false) :
    parseNumber (natDigits n ++ rest) = some ((n : Int), rest) := by
  obtain ⟨c, tl, hct⟩ : ∃ c tl, natDigits n = c :: tl := by
    cases hnd : natDigits n with
    | nil => exact absurd hnd (natDigits_ne_nil n)
    | cons c tl => exact ⟨c, tl, rfl⟩
  have hd : (digitVal c).isSome = true := by
    have hl := leadDigit_natDigits n rest
    rw [hct] at hl
    simpa [leadDigit] using hl
  have hcm : ¬ c = '-' := by
    intro hc
    rw [hc] at hd
    simp [digitVal] at hd
  rw [hct, List.cons_append, parseNumber, if_neg hcm, ← List.cons_append, ← hct,
    parseNatNum_natDigits n rest h]
  rfl

theorem parseNumber_emitInt (i : Int) (rest : List Char) (h : leadDigit rest = false) :
    parseNumber (emitInt i ++ rest) = some (i, rest) := by
  by_cases hi : i < 0
  · rw [emitInt, if_pos hi, List.cons_append, parseNumber, if_pos rfl,
      parseNatNum_natDigits _ _ h]
    simp only [Option.map]
    congr 2
    omega
  · rw [emitInt, if_neg hi, parseNumber_natDigits _ _ h]
    congr 2
    omega

theorem parseStrChars_escape (l : List Char) (rest : List Char) :
    parseStrChars (escape l ++ '"' :: rest) = some (l, rest) := by
  induction l with
  | nil =>
    rw [show escape [] = [] from rfl, List.nil_append, parseStrChars.eq_def]
    simp
  | cons c l ih =>
    simp only [escape, List.append_assoc]
    by_cases h1 : c = '"'
    · subst h1
      rw [show escChar '"' = ['\\', '"'] from rfl]
      simp only [List.cons_append, List.nil_append]
      rw [parseStrChars.eq_def]
      simp [unescChar, ih]
    · by_cases h2 : c = '\\'
      · subst h2
        rw [show escChar '\\' = ['\\', '\\'] from rfl]
        simp only [List.cons_append, List.nil_append]
        rw [parseStrChars.eq_def]
        simp [unescChar, ih]
      · by_cases h3 : c = '\n'
        · subst h3
          rw [show escChar '\n' = ['\\', 'n'] from rfl]
          simp only [List.cons_append, List.nil_append]
          rw [parseStrChars.eq_def]
          simp [unescChar, ih]
        · by_cases h4 : c = '\t'
          · subst h4
            rw [show escChar '\t' = ['\\', 't'] from rfl]
            simp only [List.cons_append, List.nil_append]
            rw [parseStrChars.eq_def]
            simp [unescChar, ih]
          · by_cases h5 : c = '\r'
            · subst h5
              rw [show escChar '\r' = ['\\', 'r'] from rfl]
              simp only [List.cons_append, List.nil_append]
              rw [parseStrChars.eq_def]
              simp [unescChar, ih]
            · rw [escChar, if_neg h1, if_neg h2, if_neg h3, if_neg h4, if_neg h5]
              simp only [List.cons_append, List.nil_append]
              rw [parseStrChars.eq_def]
              simp [h1, h2, ih]

/-- Structural induction over JSON values, recursing into array elements
and object member values. -/
theorem Json.ind (P : Json → Prop)
    (hnull : P .null) (hbool : ∀ b, P (.bool b))
    (hnum : ∀ i, P (.num i)) (hstr : ∀ s, P (.str s))
    (harr : ∀ xs, (∀ x ∈ xs, P x) → P (.arr xs))
    (hobj : ∀ kvs, (∀ kv ∈ kvs, P kv.2) → P (.obj kvs)) :
    ∀ v, P v
  | .null => hnull
  | .bool b => hbool b
  | .num i => hnum i
  | .str s => hstr s
  | .arr xs => harr xs (fun x hx => Json.ind P hnull hbool hnum hstr harr hobj x)
  | .obj kvs => hobj kvs (fun kv hkv => Json.ind P hnull hbool hnum hstr harr hobj kv.2)
termination_by v => sizeOf v
decreasing_by
  all_goals first
  | (have h1 := List.sizeOf_lt_of_mem hx
     simp only [Json.arr.sizeOf_spec]
     omega)
  | (have h1 := List.sizeOf_lt_of_mem hkv
     have h2 : sizeOf kv.2 ≤ sizeOf kv := by
       cases kv
       simp only [Prod.mk.sizeOf_spec]
       omega
     simp only [Json.obj.sizeOf_spec]
     omega)

theorem emitJson_null : emitJson .null = ['n', 'u', 'l', 'l'] := by
  rw [emitJson.eq_def]

theorem emitJson_bool (b : Bool) :
    emitJson (.bool b) = if b then ['t', 'r', 'u', 'e'] else ['f', 'a', 'l', 's', 'e'] := by
  cases b <;> rw [emitJson.eq_def] <;> rfl

theorem emitJson_num (i : Int) : emitJson (.num i) = emitInt i := by
  rw [emitJson.eq_def]

theorem emitJson_str (s : String) : emitJson (.str s) = '"' :: (escape s.data ++ ['"']) := by
  rw [emitJson.eq_def]

theorem emitJson_arr (xs : List Json) : emitJson (.arr xs) = '[' :: (emitItems xs ++ [']']) := by
  rw [emitJson.eq_def]

theorem emitJson_obj (kvs : List (String × Json)) :
    emitJson (.obj kvs) = '{' :: (emitMembers kvs ++ ['}']) := by
  rw [emitJson.eq_def]

theorem emitItems_nil : emitItems [] = [] := by
  rw [emitItems.eq_def]

theorem emitItems_cons (x : Json) (xs : List Json) :
    emitItems (x :: xs)
      = emitJson x ++ (match xs with | [] => [] | _ :: _ => ',' :: emitItems xs) := by
  cases xs <;> rw [emitItems.eq_def] <;> simp

theorem emitMembers_nil : emitMembers [] = [] := by
  rw [emitMembers.eq_def]

theorem emitMembers_cons (k : String) (v : Json) (kvs : List (String × Json)) :
    emitMembers ((k, v) :: kvs)
      = '"' :: (escape k.data ++ '"' :: ':' :: emitJson v)
        ++ (match kvs with | [] => [] | _ :: _ => ',' :: emitMembers kvs) := by
  cases kvs <;> rw [emitMembers.eq_def] <;> simp

theorem natDigits_head_digit (n : Nat) (c : Char) (tl : List Char)
    (h : natDigits n = c :: tl) : (digitVal c).isSome = true := by
  have hl := leadDigit_natDigits n []
  rw [List.append_nil, h] at hl
  simpa [leadDigit] using hl

theorem emitJson_ne_nil (v : Json) : emitJson v ≠ [] := by
  cases v with
  | null => simp [emitJson_null]
  | bool b => cases b <;> simp [emitJson_bool]
  | num i =>
    rw [emitJson_num, emitInt]
    split
    · simp
    · exact natDigits_ne_nil _
  | str s => simp [emitJson_str]
  | arr xs => simp [emitJson_arr]
  | obj kvs => simp [emitJson_obj]

theorem emitJson_head_ne_rbracket (v : Json) (c : Char) (tl : List Char)
    (h : emitJson v = c :: tl) : ¬ c = ']' := by
  intro hc
  subst hc
  cases v with
  | null => rw [emitJson_null] at h; simp at h
  | bool b => cases b <;> rw [emitJson_bool] at h <;> simp at h
  | num i =>
    rw [emitJson_num, emitInt] at h
    by_cases hi : i < 0
    · rw [if_pos hi] at h
      simp at h
    · rw [if_neg hi] at h
      have hd := natDigits_head_digit _ _ _ h
      rw [show digitVal ']' = none from rfl] at hd
      simp at hd
  | str s => rw [emitJson_str] at h; simp at h
  | arr xs => rw [emitJson_arr] at h; simp at h
  | obj kvs => rw [emitJson_obj] at h; simp at h

theorem parseVal_succ (m : Nat) (cs : List Char) :
    parseVal (m + 1) cs = parseValStep (parseItemsLoop m) (parseMembersLoop m) cs := by
  rw [parseVal]

theorem parseItemsLoop_succ (m : Nat) (cs : List Char) :
    parseItemsLoop (m + 1) cs = parseItemsStep (parseVal m) (parseItemsLoop m) cs := by
  rw [parseItemsLoop]

theorem parseMembersLoop_succ (m : Nat) (cs : List Char) :
    parseMembersLoop (m + 1) cs = parseMembersStep (parseVal m) (parseMembersLoop m) cs := by
  rw [parseMembersLoop]

theorem parseVal_emit_num (m : Nat) (i : Int) (rest : List Char)
    (hr : leadDigit rest = false) :
    parseVal (m + 1) (emitInt i ++ rest) = some (.num i, rest) := by
  by_cases hi : i < 0
  · have hsh : emitInt i ++ rest = '-' :: (natDigits i.natAbs ++ rest) := by
      rw [emitInt, if_pos hi, List.cons_append]
    have hpn : parseNumber ('-' :: (natDigits i.natAbs ++ rest)) = some (i, rest) := by
      rw [← hsh]
      exact parseNumber_emitInt i rest hr
    rw [hsh, parseVal_succ, parseValStep.eq_def]
    simp [hpn]
  · obtain ⟨c, tl, hct⟩ : ∃ c tl, natDigits i.toNat = c :: tl := by
      cases hnd : natDigits i.toNat with
      | nil => exact absurd hnd (natDigits_ne_nil _)
      | cons c tl => exact ⟨c, tl, rfl⟩
    have hd : (digitVal c).isSome = true := natDigits_head_digit _ _ _ hct
    have hsh : emitInt i ++ rest = c :: (tl ++ rest) := by
      rw [emitInt, if_neg hi, hct, List.cons_append]
    have hpn : parseNumber (c :: (tl ++ rest)) = some (i, rest) := by
      rw [← hsh]
      exact parseNumber_emitInt i rest hr
    rw [hsh, parseVal_succ, parseValStep.eq_def]
    simp [hd, hpn]

theorem parseVal_emit_str (m : Nat) (s : String) (rest : List Char) :
    parseVal (m + 1) (emitJson (.str s) ++ rest) = some (.str s, rest) := by
  rw [emitJson_str]
  have hps : parseStrChars (escape s.data ++ '"' :: rest) = some (s.data, rest) :=
    parseStrChars_escape _ _
  simp only [List.cons_append, List.append_assoc, List.singleton_append]
  rw [parseVal_succ, parseValStep.eq_def]
  simp [digitVal, hps]

theorem parseVal_emit_null (m : Nat) (rest : List Char) :
    parseVal (m + 1) (emitJson .null ++ rest) = some (.null, rest) := by
  rw [emitJson_null, parseVal_succ, parseValStep.eq_def]
  simp [digitVal, expectLit]

theorem parseVal_emit_bool (m : Nat) (b : Bool) (rest : List Char) :
    parseVal (m + 1) (emitJson (.bool b) ++ rest) = some (.bool b, rest) := by
  cases b <;>
    rw [emitJson_bool] <;>
    simp only [if_true, if_false, Bool.false_eq_true] <;>
    rw [parseVal_succ, parseValStep.eq_def] <;>
    simp [digitVal, expectLit]

theorem parseItemsLoop_emit (xs : List Json)
    (IH : ∀ x ∈ xs, ∀ n rest, (emitJson x).length < n → leadDigit rest = false →
      parseVal n (emitJson x ++ rest) = some (x, rest)) :
    ∀ n rest, xs ≠ [] → (emitItems xs).length + 1 < n → leadDigit rest = false →
    parseItemsLoop n (emitItems xs ++ ']' :: rest) = some (xs, rest) := by
  induction xs with
  | nil =>
    intro n rest hne _ _
    exact absurd rfl hne
  | cons x xs ihtail =>
    intro n rest _ hn hr
    obtain ⟨m, rfl⟩ : ∃ m, n = m + 1 := ⟨n - 1, by omega⟩
    cases xs with
    | nil =>
      have hsh : emitItems [x] = emitJson x := by
        rw [emitItems_cons]
        simp
      rw [hsh] at hn ⊢
      have hx : parseVal m (emitJson x ++ ']' :: rest) = some (x, ']' :: rest) :=
        IH x (by simp) m (']' :: rest) (by omega) (by rfl)
      rw [parseItemsLoop_succ, parseItemsStep.eq_def, hx]
      rfl
    | cons y ys =>
      have hsh : emitItems (x :: y :: ys) = emitJson x ++ ',' :: emitItems (y :: ys) := by
        rw [emitItems_cons]
      rw [hsh] at hn ⊢
      rw [List.length_append, List.length_cons] at hn
      have hx : parseVal m (emitJson x ++ ',' :: (emitItems (y :: ys) ++ ']' :: rest))
          = some (x, ',' :: (emitItems (y :: ys) ++ ']' :: rest)) :=
        IH x (by simp) m _ (by omega) (by rfl)
      have ht : parseItemsLoop m (emitItems (y :: ys) ++ ']' :: rest) = some (y :: ys, rest) :=
        ihtail (fun z hz => IH z (by simp [hz])) m rest (by simp) (by omega) hr
      rw [List.append_assoc, List.cons_append, parseItemsLoop_succ,
        parseItemsStep.eq_def, hx]
      simp [ht]

theorem parseMembersLoop_emit (kvs : List (String × Json))
    (IH : ∀ kv ∈ kvs, ∀ n rest, (emitJson kv.2).length < n → leadDigit rest = false →
      parseVal n (emitJson kv.2 ++ rest) = some (kv.2, rest)) :
    ∀ n rest, kvs ≠ [] → (emitMembers kvs).length + 1 < n → leadDigit rest = false →
    parseMembersLoop n (emitMembers kvs ++ '}' :: rest) = some (kvs, rest) := by
  induction kvs with
  | nil =>
    intro n rest hne _ _
    exact absurd rfl hne
  | cons kv kvs ihtail =>
    obtain ⟨k, v⟩ := kv
    intro n rest _ hn hr
    obtain ⟨m, rfl⟩ : ∃ m, n = m + 1 := ⟨n - 1, by omega⟩
    cases kvs with
    | nil =>
      have hsh : emitMembers [(k, v)] = '"' :: (escape k.data ++ '"' :: ':' :: emitJson v) := by
        rw [emitMembers_cons]
        simp
      rw [hsh] at hn ⊢
      rw [List.length_cons, List.length_append] at hn
      simp only [List.length_cons] at hn
      have hv : parseVal m (emitJson v ++ '}' :: rest) = some (v, '}' :: rest) :=
        IH (k, v) (by simp) m ('}' :: rest)
          (by show (emitJson v).length < m; omega) (by rfl)
      rw [parseMembersLoop_succ]
      simp only [List.cons_append, List.append_assoc]
      rw [parseMembersStep.eq_def]
      simp [parseStrChars_escape, hv]
    | cons kv2 ms =>
      have hsh : emitMembers ((k, v) :: kv2 :: ms)
          = '"' :: (escape k.data ++ '"' :: ':' :: emitJson v) ++ ',' :: emitMembers (kv2 :: ms) := by
        rw [emitMembers_cons]
      rw [hsh] at hn ⊢
      rw [List.length_append, List.length_cons, List.length_cons, List.length_append] at hn
      simp only [List.length_cons] at hn
      have hv : parseVal m (emitJson v ++ ',' :: (emitMembers (kv2 :: ms) ++ '}' :: rest))
          = some (v, ',' :: (emitMembers (kv2 :: ms) ++ '}' :: rest)) :=
        IH (k, v) (by simp) m _
          (by show (emitJson v).length < m; omega) (by rfl)
      have ht : parseMembersLoop m (emitMembers (kv2 :: ms) ++ '}' :: rest)
          = some (kv2 :: ms, rest) :=
        ihtail (fun z hz => IH z (by simp [hz])) m rest (by simp) (by omega) hr
      rw [parseMembersLoop_succ]
      simp only [List.cons_append, List.append_assoc]
      rw [parseMembersStep.eq_def]
      simp only [List.cons_append, List.append_assoc] at hv ht
      simp [parseStrChars_escape, hv, ht]

theorem parseVal_emit (v : Json) : ∀ n rest, (emitJson v).length < n → leadDigit rest = false →
    parseVal n (emitJson v ++ rest) = some (v, rest) := by
  induction v using Json.ind with
  | hnull =>
    intro n rest hn _
    obtain ⟨m, rfl⟩ : ∃ m, n = m + 1 := ⟨n - 1, by omega⟩
    exact parseVal_emit_null m rest
  | hbool b =>
    intro n rest hn _
    obtain ⟨m, rfl⟩ : ∃ m, n = m + 1 := ⟨n - 1, by omega⟩
    exact parseVal_emit_bool m b rest
  | hnum i =>
    intro n rest hn hr
    obtain ⟨m, rfl⟩ : ∃ m, n = m + 1 := ⟨n - 1, by omega⟩
    rw [emitJson_num]
    exact parseVal_emit_num m i rest hr
  | hstr s =>
    intro n rest hn _
    obtain ⟨m, rfl⟩ : ∃ m, n = m + 1 := ⟨n - 1, by omega⟩
    exact parseVal_emit_str m s rest
  | harr xs ih =>
    intro n rest hn hr
    obtain ⟨m, rfl⟩ : ∃ m, n = m + 1 := ⟨n - 1, by omega⟩
    rw [emitJson_arr] at hn ⊢
    rw [List.length_cons, List.length_append, List.length_cons, List.length_nil] at hn
    cases xs with
    | nil =>
      rw [emitItems_nil]
      simp only [List.nil_append, List.cons_append, List.singleton_append]
      rw [parseVal_succ, parseValStep.eq_def]
      simp [digitVal]
    | cons x xs =>
      obtain ⟨c, tl, hct⟩ : ∃ c tl, emitJson x = c :: tl := by
        cases he : emitJson x with
        | nil => exact absurd he (emitJson_ne_nil x)
        | cons c tl => exact ⟨c, tl, rfl⟩
      have hcne : ¬ c = ']' := emitJson_head_ne_rbracket x c tl hct
      obtain ⟨t, ht⟩ : ∃ t, emitItems (x :: xs) = c :: t := by
        cases xs with
        | nil =>
          refine ⟨tl, ?_⟩
          rw [emitItems_cons]
          simp [hct]
        | cons y ys =>
          refine ⟨tl ++ ',' :: emitItems (y :: ys), ?_⟩
          rw [emitItems_cons, hct]
          simp
      have hloop : parseItemsLoop m (emitItems (x :: xs) ++ ']' :: rest)
          = some (x :: xs, rest) :=
        parseItemsLoop_emit (x :: xs) ih m rest (by simp) (by omega) hr
      have hsc : emitItems (x :: xs) ++ ']' :: rest = c :: (t ++ ']' :: rest) := by
        rw [ht, List.cons_append]
      rw [hsc] at hloop
      simp only [List.cons_append, List.append_assoc, List.singleton_append,
        List.nil_append]
      rw [hsc, parseVal_succ, parseValStep.eq_def]
      simp [digitVal, hcne, hloop]
  | hobj kvs ih =>
    intro n rest hn hr
    obtain ⟨m, rfl⟩ : ∃ m, n = m + 1 := ⟨n - 1, by omega⟩
    rw [emitJson_obj] at hn ⊢
    rw [List.length_cons, List.length_append, List.length_cons, List.length_nil] at hn
    cases kvs with
    | nil =>
      rw [emitMembers_nil]
      simp only [List.nil_append, List.cons_append, List.singleton_append]
      rw [parseVal_succ, parseValStep.eq_def]
      simp [digitVal]
    | cons kv ms =>
      obtain ⟨k, v⟩ := kv
      obtain ⟨t, ht⟩ : ∃ t, emitMembers ((k, v) :: ms) = '"' :: t := by
        cases ms with
        | nil =>
          refine ⟨escape k.data ++ '"' :: ':' :: emitJson v, ?_⟩
          rw [emitMembers_cons]
          simp
        | cons m2 ms2 =>
          refine ⟨(escape k.data ++ '"' :: ':' :: emitJson v) ++ ',' :: emitMembers (m2 :: ms2), ?_⟩
          rw [emitMembers_cons, List.cons_append]
      have hloop : parseMembersLoop m (emitMembers ((k, v) :: ms) ++ '}' :: rest)
          = some ((k, v) :: ms, rest) :=
        parseMembersLoop_emit ((k, v) :: ms) ih m rest (by simp) (by omega) hr
      have hsc : emitMembers ((k, v) :: ms) ++ '}' :: rest = '"' :: (t ++ '}' :: rest) := by
        rw [ht, List.cons_append]
      rw [hsc] at hloop
      simp only [List.cons_append, List.append_assoc, List.singleton_append,
        List.nil_append]
      rw [hsc, parseVal_succ, parseValStep.eq_def]
      simp [digitVal, hloop]

/-- `JSON.parse (JSON.stringify v)` recovers `v` exactly. -/
theorem parseJson_emitJson (v : Json) : parseJson (emitJson v) = some v := by
  have h := parseVal_emit v ((emitJson v).length + 1) [] (by omega) rfl
  rw [List.append_nil] at h
  rw [parseJson, h]

theorem listenersFor_addListener (reg : List (String × List Nat)) (t : String) (cb : Nat)
    (t' : String) :
    listenersFor (addListener reg t cb) t'
      = if t = t' then listenersFor reg t' ++ [cb] else listenersFor reg t' := by
  induction reg with
  | nil => simp [addListener, listenersFor]
  | cons kv rest ih =>
    obtain ⟨k, cbs⟩ := kv
    by_cases hk : k = t
    · subst hk
      rw [addListener, if_pos rfl]
      by_cases ht : k = t'
      · subst ht
        simp [listenersFor]
      · simp [listenersFor, ht]
    · rw [addListener, if_neg hk]
      by_cases ht : k = t'
      · subst ht
        have htne : ¬ t = k := fun h => hk h.symm
        simp [listenersFor, htne]
      · simp [listenersFor, ht, ih]

theorem listenersFor_foldl (cb : Nat) (ts : List String) :
    ∀ (reg : List (String × List Nat)) (t' : String),
    listenersFor (ts.foldl (fun r t => addListener r t cb) reg) t'
      = listenersFor reg t' ++ List.replicate (ts.count t') cb := by
  induction ts with
  | nil => simp
  | cons t ts ih =>
    intro reg t'
    rw [List.foldl_cons, ih, listenersFor_addListener]
    by_cases ht : t = t'
    · subst ht
      simp [List.count_cons, List.replicate_succ]
    · have : (t == t') = false := by
        simp [ht]
      simp [List.count_cons, this, ht]

theorem onMessage_publishFrame (reg : List (String × List Nat)) (t : String) (p : Json) :
    onMessage reg (publishFrame t p)
      = (listenersFor reg t ++ listenersFor reg TOPIC_ALL).map (fun cb => (cb, t, p)) := by
  have hne : ¬ ("topic" : String) = "payload" := by decide
  rw [onMessage.eq_def, publishFrame, parseJson_emitJson]
  cases hcbs : listenersFor reg t ++ listenersFor reg TOPIC_ALL with
  | nil => simp [getField, lookupField, hne, hcbs]
  | cons c0 ctl => simp [getField, lookupField, hne, hcbs, parseJson_emitJson]

theorem connectPublisherN_pending (k : Nat) :
    ∀ (m : ClientModel) (pid : Nat), m.pubConnectPromise = some pid →
    connectPublisherN k m = (List.replicate k (.pending pid), m) := by
  induction k with
  | zero =>
    intro m pid _
    rfl
  | succ k ih =>
    intro m pid hp
    have hc : connectPublisher m = (.pending pid, m, []) := by
      rw [connectPublisher.eq_def, hp]
    rw [connectPublisherN, hc]
    simp [ih m pid hp, List.replicate_succ]

theorem connectSubscriberN_pending (k : Nat) :
    ∀ (m : ClientModel) (pid : Nat), m.subConnectPromise = some pid →
    connectSubscriberN k m = (List.replicate k (.pending pid), m) := by
  induction k with
  | zero =>
    intro m pid _
    rfl
  | succ k ih =>
    intro m pid hp
    have hc : connectSubscriber m = (.pending pid, m, []) := by
      rw [connectSubscriber.eq_def, hp]
    rw [connectSubscriberN, hc]
    simp [ih m pid hp, List.replicate_succ]

/-- C1: for each role, at most one in-flight connection attempt exists at
any instant: starting from a state with no in-flight attempt, no open
socket and shutdown not begun, `N ≥ 1` overlapping calls to the
connection-triggering operation construct exactly one transport handle,
and every one of the `N` callers is returned the same pending promise
(hence observes the same outcome when that single promise settles). -/
theorem connect_coalescing_one_socket_per_role (m : ClientModel) (N : Nat)
    (hN : 1 ≤ N)
    (hpp : m.pubConnectPromise = none)
    (hps : isSocketConnected m.pubSocket = false)
    (hsp : m.subConnectPromise = none)
    (hss : isSocketConnected m.subSocket = false)
    (hd : m.isDisconnecting = false) :
    ((connectPublisherN N m).2.socketsCreated = m.socketsCreated + 1
      ∧ (connectPublisherN N m).1 = List.replicate N (.pending m.promiseCounter))
    ∧ ((connectSubscriberN N m).2.socketsCreated = m.socketsCreated + 1
      ∧ (connectSubscriberN N m).1 = List.replicate N (.pending m.promiseCounter)) := by
  obtain ⟨k, rfl⟩ : ∃ k, N = k + 1 := ⟨N - 1, by omega⟩
  constructor
  · have hc : connectPublisher m
        = (.pending m.promiseCounter,
           { m with
              pubState := .CONNECTING,
              pubSocket := some ⟨m.socketsCreated, 0⟩,
              socketsCreated := m.socketsCreated + 1,
              pubConnectPromise := some m.promiseCounter,
              promiseCounter := m.promiseCounter + 1 },
           [(.CONNECTING, .publisher)]) := by
      rw [connectPublisher.eq_def, hpp]
      simp [hps, hd]
    rw [connectPublisherN, hc]
    rw [connectPublisherN_pending k _ m.promiseCounter rfl]
    simp [List.replicate_succ]
  · have hc : connectSubscriber m
        = (.pending m.promiseCounter,
           { m with
              subState := .CONNECTING,
              subSocket := some ⟨m.socketsCreated, 0⟩,
              socketsCreated := m.socketsCreated + 1,
              subConnectPromise := some m.promiseCounter,
              promiseCounter := m.promiseCounter + 1 },
           [(.CONNECTING, .subscriber)]) := by
      rw [connectSubscriber.eq_def, hsp]
      simp [hss, hd]
    rw [connectSubscriberN, hc]
    rw [connectSubscriberN_pending k _ m.promiseCounter rfl]
    simp [List.replicate_succ]

/-- Witness for C1 at the freshly-constructed client and `N = 3`. -/
theorem connect_coalescing_one_socket_per_role_witness :
    (1 ≤ 3 ∧ initialModel.pubConnectPromise = none
      ∧ isSocketConnected initialModel.pubSocket = false
      ∧ initialModel.subConnectPromise = none
      ∧ isSocketConnected initialModel.subSocket = false
      ∧ initialModel.isDisconnecting = false)
    ∧ (((connectPublisherN 3 initialModel).2.socketsCreated = initialModel.socketsCreated + 1
        ∧ (connectPublisherN 3 initialModel).1
            = List.replicate 3 (.pending initialModel.promiseCounter))
      ∧ ((connectSubscriberN 3 initialModel).2.socketsCreated = initialModel.socketsCreated + 1
        ∧ (connectSubscriberN 3 initialModel).1
            = List.replicate 3 (.pending initialModel.promiseCounter))) :=
  ⟨by decide,
   connect_coalescing_one_socket_per_role initialModel 3 (by decide) rfl rfl rfl rfl rfl⟩

theorem attemptReconnectPublisher_noop (m : ClientModel)
    (h : m.pubReconnectAttempts ≥ m.maxReconnectAttempts ∨ m.isDisconnecting = true) :
    attemptReconnectPublisher m = (m, []) := by
  rw [attemptReconnectPublisher, if_pos h]

theorem attemptReconnectSubscriber_noop (m : ClientModel)
    (h : m.subReconnectAttempts ≥ m.maxReconnectAttempts ∨ m.isDisconnecting = true) :
    attemptReconnectSubscriber m = (m, []) := by
  rw [attemptReconnectSubscriber, if_pos h]

theorem handlePubClose_not_connected (m : ClientModel)
    (h : ¬ m.pubState = ConnectionState.CONNECTED) :
    handlePubClose m
      = ({ m with
            pubSocket := m.pubSocket.map (fun s => { s with readyState := 3 }),
            pubState := ConnectionState.DISCONNECTED,
            pubConnectPromise := none,
            promiseLog := settleOpt m.promiseLog m.pubConnectPromise
              (.rejectedErr "WebSocket error: Denied") },
         [(ConnectionState.DISCONNECTED, Role.publisher)]) := by
  rw [handlePubClose]
  split_ifs <;> simp_all

theorem handleSubClose_not_connected (m : ClientModel)
    (h : ¬ m.subState = ConnectionState.CONNECTED) :
    handleSubClose m
      = ({ m with
            subSocket := m.subSocket.map (fun s => { s with readyState := 3 }),
            subState := ConnectionState.DISCONNECTED,
            subConnectPromise := none,
            promiseLog := settleOpt m.promiseLog m.subConnectPromise
              (.rejectedErr "WebSocket error: Denied") },
         [(ConnectionState.DISCONNECTED, Role.subscriber)]) := by
  rw [handleSubClose]
  split_ifs <;> simp_all

theorem handlePubClose_connected (m : ClientModel)
    (h : m.pubState = ConnectionState.CONNECTED) :
    handlePubClose m
      = ((if m.autoReconnect = true ∧ m.isDisconnecting = false
          then attemptReconnectPublisher
            { m with
                pubSocket := m.pubSocket.map (fun s => { s with readyState := 3 }),
                pubState := ConnectionState.DISCONNECTED,
                pubConnectPromise := none }
          else ({ m with
              pubSocket := m.pubSocket.map (fun s => { s with readyState := 3 }),
              pubState := ConnectionState.DISCONNECTED,
              pubConnectPromise := none }, [])).1,
        (ConnectionState.DISCONNECTED, Role.publisher)
          :: (if m.autoReconnect = true ∧ m.isDisconnecting = false
              then attemptReconnectPublisher
                { m with
                    pubSocket := m.pubSocket.map (fun s => { s with readyState := 3 }),
                    pubState := ConnectionState.DISCONNECTED,
                    pubConnectPromise := none }
              else ({ m with
                  pubSocket := m.pubSocket.map (fun s => { s with readyState := 3 }),
                  pubState := ConnectionState.DISCONNECTED,
                  pubConnectPromise := none }, [])).2) := by
  rw [handlePubClose]
  split_ifs <;> simp_all

theorem handleSubClose_connected (m : ClientModel)
    (h : m.subState = ConnectionState.CONNECTED) :
    handleSubClose m
      = ((if m.autoReconnect = true ∧ m.isDisconnecting = false
          then attemptReconnectSubscriber
            { m with
                subSocket := m.subSocket.map (fun s => { s with readyState := 3 }),
                subState := ConnectionState.DISCONNECTED,
                subConnectPromise := none }
          else ({ m with
              subSocket := m.subSocket.map (fun s => { s with readyState := 3 }),
              subState := ConnectionState.DISCONNECTED,
              subConnectPromise := none }, [])).1,
        (ConnectionState.DISCONNECTED, Role.subscriber)
          :: (if m.autoReconnect = true ∧ m.isDisconnecting = false
              then attemptReconnectSubscriber
                { m with
                    subSocket := m.subSocket.map (fun s => { s with readyState := 3 }),
                    subState := ConnectionState.DISCONNECTED,
                    subConnectPromise := none }
              else ({ m with
                  subSocket := m.subSocket.map (fun s => { s with readyState := 3 }),
                  subState := ConnectionState.DISCONNECTED,
                  subConnectPromise := none }, [])).2) := by
  rw [handleSubClose]
  split_ifs <;> simp_all

theorem handlePubClose_fields (m : ClientModel) :
    ((handlePubClose m).1.pubReconnectAttempts = m.pubReconnectAttempts
      ∨ ((handlePubClose m).1.pubReconnectAttempts = m.pubReconnectAttempts + 1
          ∧ m.pubReconnectAttempts < m.maxReconnectAttempts))
    ∧ (handlePubClose m).1.subReconnectAttempts = m.subReconnectAttempts
    ∧ (handlePubClose m).1.maxReconnectAttempts = m.maxReconnectAttempts
    ∧ (handlePubClose m).1.subTimers = m.subTimers
    ∧ (handlePubClose m).1.isDisconnecting = m.isDisconnecting := by
  by_cases h : m.pubState = ConnectionState.CONNECTED
  · rw [handlePubClose_connected m h]
    split_ifs with hc
    · rw [attemptReconnectPublisher]
      split_ifs with ha
      · simp
      · simp at ha ⊢
        omega
    · simp
  · rw [handlePubClose_not_connected m h]
    simp

theorem handleSubClose_fields (m : ClientModel) :
    ((handleSubClose m).1.subReconnectAttempts = m.subReconnectAttempts
      ∨ ((handleSubClose m).1.subReconnectAttempts = m.subReconnectAttempts + 1
          ∧ m.subReconnectAttempts < m.maxReconnectAttempts))
    ∧ (handleSubClose m).1.pubReconnectAttempts = m.pubReconnectAttempts
    ∧ (handleSubClose m).1.maxReconnectAttempts = m.maxReconnectAttempts
    ∧ (handleSubClose m).1.pubTimers = m.pubTimers
    ∧ (handleSubClose m).1.isDisconnecting = m.isDisconnecting := by
  by_cases h : m.subState = ConnectionState.CONNECTED
  · rw [handleSubClose_connected m h]
    split_ifs with hc
    · rw [attemptReconnectSubscriber]
      split_ifs with ha
      · simp
      · simp at ha ⊢
        omega
    · simp
  · rw [handleSubClose_not_connected m h]
    simp

theorem connectPublisher_fields (m : ClientModel) :
    (connectPublisher m).2.1.pubReconnectAttempts = m.pubReconnectAttempts
    ∧ (connectPublisher m).2.1.subReconnectAttempts = m.subReconnectAttempts
    ∧ (connectPublisher m).2.1.maxReconnectAttempts = m.maxReconnectAttempts
    ∧ (connectPublisher m).2.1.pubTimers = m.pubTimers
    ∧ (connectPublisher m).2.1.subTimers = m.subTimers
    ∧ (connectPublisher m).2.1.isDisconnecting = m.isDisconnecting := by
  rw [connectPublisher.eq_def]
  cases m.pubConnectPromise <;> split_ifs <;> simp

theorem connectSubscriber_fields (m : ClientModel) :
    (connectSubscriber m).2.1.pubReconnectAttempts = m.pubReconnectAttempts
    ∧ (connectSubscriber m).2.1.subReconnectAttempts = m.subReconnectAttempts
    ∧ (connectSubscriber m).2.1.maxReconnectAttempts = m.maxReconnectAttempts
    ∧ (connectSubscriber m).2.1.pubTimers = m.pubTimers
    ∧ (connectSubscriber m).2.1.subTimers = m.subTimers
    ∧ (connectSubscriber m).2.1.isDisconnecting = m.isDisconnecting := by
  rw [connectSubscriber.eq_def]
  cases m.subConnectPromise <;> split_ifs <;> simp

theorem disconnectModel_fields (m : ClientModel) (p s : Bool) :
    (disconnectModel m p s).1.pubReconnectAttempts = m.pubReconnectAttempts
    ∧ (disconnectModel m p s).1.subReconnectAttempts = m.subReconnectAttempts
    ∧ (disconnectModel m p s).1.maxReconnectAttempts = m.maxReconnectAttempts := by
  rw [disconnectModel]
  repeat' split
  all_goals simp_all [handlePubClose_not_connected, handleSubClose_not_connected]

theorem step_max_const (e : Event) (m : ClientModel) :
    (step e m).1.maxReconnectAttempts = m.maxReconnectAttempts := by
  cases e with
  | pubConnect => exact (connectPublisher_fields m).2.2.1
  | subConnect => exact (connectSubscriber_fields m).2.2.1
  | pubOpen => simp [step, handlePubOpen]
  | subOpen => simp [step, handleSubOpen]
  | pubClose => exact (handlePubClose_fields m).2.2.1
  | subClose => exact (handleSubClose_fields m).2.2.1
  | pubError msg => simp [step, handlePubError]
  | subError msg => simp [step, handleSubError]
  | pubTimerFire =>
    simp only [step, pubReconnectTimerFire]
    split_ifs with h
    · simp
    · exact (connectPublisher_fields _).2.2.1
  | subTimerFire =>
    simp only [step, subReconnectTimerFire]
    split_ifs with h
    · simp
    · exact (connectSubscriber_fields _).2.2.1
  | pubRetryCatch =>
    simp only [step, attemptReconnectPublisher]
    split_ifs <;> simp
  | subRetryCatch =>
    simp only [step, attemptReconnectSubscriber]
    split_ifs <;> simp
  | disconnect p s => exact (disconnectModel_fields m p s).2.2

theorem step_pub_attempts (e : Event) (m : ClientModel) (he : e ≠ Event.pubOpen) :
    (step e m).1.pubReconnectAttempts = m.pubReconnectAttempts
    ∨ ((step e m).1.pubReconnectAttempts = m.pubReconnectAttempts + 1
        ∧ m.pubReconnectAttempts < m.maxReconnectAttempts) := by
  cases e with
  | pubConnect => exact Or.inl (connectPublisher_fields m).1
  | subConnect => exact Or.inl (connectSubscriber_fields m).1
  | pubOpen => exact absurd rfl he
  | subOpen => exact Or.inl (by simp [step, handleSubOpen])
  | pubClose => exact (handlePubClose_fields m).1
  | subClose => exact Or.inl (handleSubClose_fields m).2.1
  | pubError msg =>
    refine Or.inl ?_
    simp only [step, handlePubError]
    split_ifs <;> simp
  | subError msg =>
    refine Or.inl ?_
    simp only [step, handleSubError]
    split_ifs <;> simp
  | pubTimerFire =>
    refine Or.inl ?_
    simp only [step, pubReconnectTimerFire]
    split_ifs with h
    · simp
    · exact (connectPublisher_fields _).1
  | subTimerFire =>
    refine Or.inl ?_
    simp only [step, subReconnectTimerFire]
    split_ifs with h
    · simp
    · exact (connectSubscriber_fields _).1
  | pubRetryCatch =>
    simp only [step, attemptReconnectPublisher]
    split_ifs with h
    · exact Or.inl rfl
    · refine Or.inr ⟨by simp, by omega⟩
  | subRetryCatch =>
    refine Or.inl ?_
    simp only [step, attemptReconnectSubscriber]
    split_ifs <;> simp
  | disconnect p s => exact Or.inl (disconnectModel_fields m p s).1

theorem step_sub_attempts (e : Event) (m : ClientModel) (he : e ≠ Event.subOpen) :
    (step e m).1.subReconnectAttempts = m.subReconnectAttempts
    ∨ ((step e m).1.subReconnectAttempts = m.subReconnectAttempts + 1
        ∧ m.subReconnectAttempts < m.maxReconnectAttempts) := by
  cases e with
  | pubConnect => exact Or.inl (connectPublisher_fields m).2.1
  | subConnect => exact Or.inl (connectSubscriber_fields m).2.1
  | subOpen => exact absurd rfl he
  | pubOpen => exact Or.inl (by simp [step, handlePubOpen])
  | subClose => exact (handleSubClose_fields m).1
  | pubClose => exact Or.inl (handlePubClose_fields m).2.1
  | pubError msg =>
    refine Or.inl ?_
    simp only [step, handlePubError]
    split_ifs <;> simp
  | subError msg =>
    refine Or.inl ?_
    simp only [step, handleSubError]
    split_ifs <;> simp
  | pubTimerFire =>
    refine Or.inl ?_
    simp only [step, pubReconnectTimerFire]
    split_ifs with h
    · simp
    · exact (connectPublisher_fields _).2.1
  | subTimerFire =>
    refine Or.inl ?_
    simp only [step, subReconnectTimerFire]
    split_ifs with h
    · simp
    · exact (connectSubscriber_fields _).2.1
  | subRetryCatch =>
    simp only [step, attemptReconnectSubscriber]
    split_ifs with h
    · exact Or.inl rfl
    · refine Or.inr ⟨by simp, by omega⟩
  | pubRetryCatch =>
    refine Or.inl ?_
    simp only [step, attemptReconnectPublisher]
    split_ifs <;> simp
  | disconnect p s => exact Or.inl (disconnectModel_fields m p s).2.1

theorem step_attempts_le (e : Event) (m : ClientModel)
    (hp : m.pubReconnectAttempts ≤ m.maxReconnectAttempts)
    (hs : m.subReconnectAttempts ≤ m.maxReconnectAttempts) :
    (step e m).1.pubReconnectAttempts ≤ (step e m).1.maxReconnectAttempts
    ∧ (step e m).1.subReconnectAttempts ≤ (step e m).1.maxReconnectAttempts := by
  rw [step_max_const]
  constructor
  · by_cases he : e = Event.pubOpen
    · subst he
      simp [step, handlePubOpen]
    · rcases step_pub_attempts e m he with h | ⟨h1, h2⟩ <;> omega
  · by_cases he : e = Event.subOpen
    · subst he
      simp [step, handleSubOpen]
    · rcases step_sub_attempts e m he with h | ⟨h1, h2⟩ <;> omega

theorem run_attempts_le (evs : List Event) :
    ∀ m : ClientModel,
    m.pubReconnectAttempts ≤ m.maxReconnectAttempts →
    m.subReconnectAttempts ≤ m.maxReconnectAttempts →
    (run evs m).pubReconnectAttempts ≤ (run evs m).maxReconnectAttempts
    ∧ (run evs m).subReconnectAttempts ≤ (run evs m).maxReconnectAttempts := by
  induction evs with
  | nil =>
    intro m hp hs
    exact ⟨hp, hs⟩
  | cons e es ih =>
    intro m hp hs
    have h := step_attempts_le e m hp hs
    exact ih (step e m).1 h.1 h.2

theorem handlePubClose_at_max (m : ClientModel)
    (h : m.pubReconnectAttempts ≥ m.maxReconnectAttempts) :
    (handlePubClose m).1.pubReconnectAttempts = m.pubReconnectAttempts
    ∧ (handlePubClose m).1.pubTimers = m.pubTimers
    ∧ ∀ n ∈ (handlePubClose m).2,
        n.1 ≠ ConnectionState.RECONNECTING ∧ n.1 ≠ ConnectionState.CONNECTING := by
  by_cases hc : m.pubState = ConnectionState.CONNECTED
  · rw [handlePubClose_connected m hc]
    split_ifs with ha
    · simp [attemptReconnectPublisher_noop, h]
    · simp
  · rw [handlePubClose_not_connected m hc]
    simp

theorem handleSubClose_at_max (m : ClientModel)
    (h : m.subReconnectAttempts ≥ m.maxReconnectAttempts) :
    (handleSubClose m).1.subReconnectAttempts = m.subReconnectAttempts
    ∧ (handleSubClose m).1.subTimers = m.subTimers
    ∧ ∀ n ∈ (handleSubClose m).2,
        n.1 ≠ ConnectionState.RECONNECTING ∧ n.1 ≠ ConnectionState.CONNECTING := by
  by_cases hc : m.subState = ConnectionState.CONNECTED
  · rw [handleSubClose_connected m hc]
    split_ifs with ha
    · simp [attemptReconnectSubscriber_noop, h]
    · simp
  · rw [handleSubClose_not_connected m hc]
    simp

/-- C2: for each role, the reconnect counter never exceeds the configured
`maxReconnectAttempts` along any event trace; once the counter has
reached the ceiling without a successful open, a further close event
produces no new reconnection (counter and pending timers unchanged) and
no `RECONNECTING`/`CONNECTING` transition; and only the role's `onopen`
event ever resets the counter to zero. -/
theorem reconnect_attempts_bounded (m : ClientModel) (evs : List Event)
    (hp : m.pubReconnectAttempts ≤ m.maxReconnectAttempts)
    (hs : m.subReconnectAttempts ≤ m.maxReconnectAttempts) :
    ((run evs m).pubReconnectAttempts ≤ (run evs m).maxReconnectAttempts
      ∧ (run evs m).subReconnectAttempts ≤ (run evs m).maxReconnectAttempts)
    ∧ (m.pubReconnectAttempts ≥ m.maxReconnectAttempts →
        (handlePubClose m).1.pubReconnectAttempts = m.pubReconnectAttempts
        ∧ (handlePubClose m).1.pubTimers = m.pubTimers
        ∧ ∀ n ∈ (handlePubClose m).2,
            n.1 ≠ ConnectionState.RECONNECTING ∧ n.1 ≠ ConnectionState.CONNECTING)
    ∧ (m.subReconnectAttempts ≥ m.maxReconnectAttempts →
        (handleSubClose m).1.subReconnectAttempts = m.subReconnectAttempts
        ∧ (handleSubClose m).1.subTimers = m.subTimers
        ∧ ∀ n ∈ (handleSubClose m).2,
            n.1 ≠ ConnectionState.RECONNECTING ∧ n.1 ≠ ConnectionState.CONNECTING)
    ∧ (∀ e, e ≠ Event.pubOpen → (step e m).1.pubReconnectAttempts = 0 →
        m.pubReconnectAttempts = 0)
    ∧ (∀ e, e ≠ Event.subOpen → (step e m).1.subReconnectAttempts = 0 →
        m.subReconnectAttempts = 0)
    ∧ (step Event.pubOpen m).1.pubReconnectAttempts = 0
    ∧ (step Event.subOpen m).1.subReconnectAttempts = 0 := by
  refine ⟨run_attempts_le evs m hp hs, handlePubClose_at_max m, handleSubClose_at_max m,
    ?_, ?_, by simp [step, handlePubOpen], by simp [step, handleSubOpen]⟩
  · intro e he h0
    rcases step_pub_attempts e m he with h | ⟨h1, _⟩ <;> omega
  · intro e he h0
    rcases step_sub_attempts e m he with h | ⟨h1, _⟩ <;> omega

/-- Witness for C2 at the exhausted client and a close-close trace. -/
theorem reconnect_attempts_bounded_witness :
    (exhaustedModel.pubReconnectAttempts ≤ exhaustedModel.maxReconnectAttempts
      ∧ exhaustedModel.subReconnectAttempts ≤ exhaustedModel.maxReconnectAttempts)
    ∧ ((run [Event.pubClose, Event.subClose] exhaustedModel).pubReconnectAttempts
          ≤ (run [Event.pubClose, Event.subClose] exhaustedModel).maxReconnectAttempts
      ∧ (run [Event.pubClose, Event.subClose] exhaustedModel).subReconnectAttempts
          ≤ (run [Event.pubClose, Event.subClose] exhaustedModel).maxReconnectAttempts)
    ∧ ((handlePubClose exhaustedModel).1.pubReconnectAttempts
          = exhaustedModel.pubReconnectAttempts
      ∧ (handlePubClose exhaustedModel).1.pubTimers = exhaustedModel.pubTimers) := by
  have h := reconnect_attempts_bounded exhaustedModel [Event.pubClose, Event.subClose]
    (by decide) (by decide)
  exact ⟨⟨by decide, by decide⟩, h.1, (h.2.1 (by decide)).1, (h.2.1 (by decide)).2.1⟩

/-- C4: once the shutdown flag is set, a call to a connect operation that
would actually start a new attempt (no open socket to reuse, no in-flight
attempt to join) rejects immediately with the `Client is disconnecting`
error and changes nothing — in particular no socket is constructed; and
no reconnection is scheduled (the scheduler is a no-op) or executed (a
firing timer's body does nothing) for either role while the flag is set. -/
theorem shutdown_blocks_connect_and_reconnect (m : ClientModel)
    (hd : m.isDisconnecting = true) :
    (m.pubConnectPromise = none → isSocketConnected m.pubSocket = false →
      connectPublisher m = (.rejectedNow "Client is disconnecting", m, []))
    ∧ (m.subConnectPromise = none → isSocketConnected m.subSocket = false →
      connectSubscriber m = (.rejectedNow "Client is disconnecting", m, []))
    ∧ attemptReconnectPublisher m = (m, [])
    ∧ attemptReconnectSubscriber m = (m, [])
    ∧ pubReconnectTimerFire m = ({ m with pubTimers := m.pubTimers - 1 }, [])
    ∧ subReconnectTimerFire m = ({ m with subTimers := m.subTimers - 1 }, []) := by
  refine ⟨?_, ?_, attemptReconnectPublisher_noop m (Or.inr hd),
    attemptReconnectSubscriber_noop m (Or.inr hd), ?_, ?_⟩
  · intro h1 h2
    rw [connectPublisher.eq_def, h1]
    simp [h2, hd]
  · intro h1 h2
    rw [connectSubscriber.eq_def, h1]
    simp [h2, hd]
  · simp [pubReconnectTimerFire, hd]
  · simp [subReconnectTimerFire, hd]

/-- Witness for C4 at a shutting-down client. -/
theorem shutdown_blocks_connect_and_reconnect_witness :
    (shuttingDownModel.isDisconnecting = true
      ∧ shuttingDownModel.pubConnectPromise = none
      ∧ isSocketConnected shuttingDownModel.pubSocket = false
      ∧ shuttingDownModel.subConnectPromise = none
      ∧ isSocketConnected shuttingDownModel.subSocket = false)
    ∧ connectPublisher shuttingDownModel
        = (.rejectedNow "Client is disconnecting", shuttingDownModel, [])
    ∧ connectSubscriber shuttingDownModel
        = (.rejectedNow "Client is disconnecting", shuttingDownModel, [])
    ∧ attemptReconnectPublisher shuttingDownModel = (shuttingDownModel, [])
    ∧ attemptReconnectSubscriber shuttingDownModel = (shuttingDownModel, []) := by
  have h := shutdown_blocks_connect_and_reconnect shuttingDownModel (by decide)
  exact ⟨by decide, h.1 (by decide) (by decide), h.2.1 (by decide) (by decide),
    h.2.2.1, h.2.2.2.1⟩

theorem handlePubClose_spurious (d : ClientModel)
    (h : ¬ d.pubState = ConnectionState.CONNECTED) :
    (handlePubClose d).1.pubTimers = d.pubTimers
    ∧ (handlePubClose d).1.pubReconnectAttempts = d.pubReconnectAttempts
    ∧ ∀ n ∈ (handlePubClose d).2,
        n.1 ≠ ConnectionState.RECONNECTING ∧ n.1 ≠ ConnectionState.CONNECTING := by
  rw [handlePubClose_not_connected d h]
  simp

theorem handleSubClose_spurious (d : ClientModel)
    (h : ¬ d.subState = ConnectionState.CONNECTED) :
    (handleSubClose d).1.subTimers = d.subTimers
    ∧ (handleSubClose d).1.subReconnectAttempts = d.subReconnectAttempts
    ∧ ∀ n ∈ (handleSubClose d).2,
        n.1 ≠ ConnectionState.RECONNECTING ∧ n.1 ≠ ConnectionState.CONNECTING := by
  rw [handleSubClose_not_connected d h]
  simp

theorem disconnectModel_states (m : ClientModel) (p s : Bool)
    (hpub : (m.pubSocket = none ∧ m.pubState = ConnectionState.DISCONNECTED)
      ∨ (m.pubSocket ≠ none ∧ p = true))
    (hsub : (m.subSocket = none ∧ m.subState = ConnectionState.DISCONNECTED)
      ∨ (m.subSocket ≠ none ∧ s = true)) :
    (disconnectModel m p s).1.pubState = ConnectionState.DISCONNECTED
    ∧ (disconnectModel m p s).1.subState = ConnectionState.DISCONNECTED := by
  rw [disconnectModel]
  repeat' split
  all_goals
    simp_all [handlePubClose_not_connected, handleSubClose_not_connected]

/-- C3 counterexample: with a live publisher socket whose transport never
emits its close event, `disconnect()` resolves through the forced timeout
and the publisher still reports `DISCONNECTING`, not `DISCONNECTED`. -/
theorem disconnect_timeout_leaves_disconnecting :
    getPublisherState (disconnectModel liveModel false false).1 ≠ ConnectionState.DISCONNECTED
    ∧ getPublisherState (disconnectModel liveModel false false).1
        = ConnectionState.DISCONNECTING := by
  decide

/-- C3 (amended): when every role with a live transport handle observes
its close event during shutdown (and a role without a handle was already
`DISCONNECTED`), both roles report `DISCONNECTED` after `disconnect()`
resolves, and a later spurious close event causes no reconnection: no
timer is scheduled, the counter is unchanged, and no
`RECONNECTING`/`CONNECTING` transition is notified. On the forced-timeout
path (close never observed) the role remains `DISCONNECTING` instead. -/
theorem disconnect_terminal_states (m : ClientModel) (p s : Bool)
    (hpub : (m.pubSocket = none ∧ m.pubState = ConnectionState.DISCONNECTED)
      ∨ (m.pubSocket ≠ none ∧ p = true))
    (hsub : (m.subSocket = none ∧ m.subState = ConnectionState.DISCONNECTED)
      ∨ (m.subSocket ≠ none ∧ s = true)) :
    getPublisherState (disconnectModel m p s).1 = ConnectionState.DISCONNECTED
    ∧ getSubscriberState (disconnectModel m p s).1 = ConnectionState.DISCONNECTED
    ∧ ((step Event.pubClose (disconnectModel m p s).1).1.pubTimers
          = (disconnectModel m p s).1.pubTimers
      ∧ (step Event.pubClose (disconnectModel m p s).1).1.pubReconnectAttempts
          = (disconnectModel m p s).1.pubReconnectAttempts
      ∧ ∀ n ∈ (step Event.pubClose (disconnectModel m p s).1).2,
          n.1 ≠ ConnectionState.RECONNECTING ∧ n.1 ≠ ConnectionState.CONNECTING)
    ∧ ((step Event.subClose (disconnectModel m p s).1).1.subTimers
          = (disconnectModel m p s).1.subTimers
      ∧ (step Event.subClose (disconnectModel m p s).1).1.subReconnectAttempts
          = (disconnectModel m p s).1.subReconnectAttempts
      ∧ ∀ n ∈ (step Event.subClose (disconnectModel m p s).1).2,
          n.1 ≠ ConnectionState.RECONNECTING ∧ n.1 ≠ ConnectionState.CONNECTING) := by
  have hst := disconnectModel_states m p s hpub hsub
  refine ⟨hst.1, hst.2, ?_, ?_⟩
  · exact handlePubClose_spurious (disconnectModel m p s).1 (by simp [hst.1])
  · exact handleSubClose_spurious (disconnectModel m p s).1 (by simp [hst.2])

/-- Witness for C3's amended statement: both transports close promptly. -/
theorem disconnect_terminal_states_witness :
    ((liveModel.pubSocket = none ∧ liveModel.pubState = ConnectionState.DISCONNECTED)
      ∨ (liveModel.pubSocket ≠ none ∧ true = true))
    ∧ ((liveModel.subSocket = none ∧ liveModel.subState = ConnectionState.DISCONNECTED)
      ∨ (liveModel.subSocket ≠ none ∧ true = true))
    ∧ getPublisherState (disconnectModel liveModel true true).1 = ConnectionState.DISCONNECTED
    ∧ getSubscriberState (disconnectModel liveModel true true).1 = ConnectionState.DISCONNECTED
    ∧ (step Event.pubClose (disconnectModel liveModel true true).1).1.pubTimers
        = (disconnectModel liveModel true true).1.pubTimers := by
  have h := disconnect_terminal_states liveModel true true
    (Or.inr ⟨by decide, rfl⟩) (Or.inr ⟨by decide, rfl⟩)
  exact ⟨Or.inr ⟨by decide, rfl⟩, Or.inr ⟨by decide, rfl⟩, h.1, h.2.1, h.2.2.1.1⟩

theorem handlePubError_promiseLog (m : ClientModel) (msg : String) :
    (handlePubError m msg).1.promiseLog
      = settleOpt m.promiseLog m.pubConnectPromise
          (.rejectedErr ("WebSocket error: " ++ msg)) := by
  simp [handlePubError]

theorem handleSubError_promiseLog (m : ClientModel) (msg : String) :
    (handleSubError m msg).1.promiseLog
      = settleOpt m.promiseLog m.subConnectPromise
          (.rejectedErr ("WebSocket error: " ++ msg)) := by
  simp [handleSubError]

theorem settled_mem_any (log : List (Nat × PSettle)) (pid : Nat) (x : PSettle)
    (h : settled log pid = some x) : log.any (fun e => e.1 == pid) = true := by
  induction log with
  | nil => simp [settled] at h
  | cons e rest ih =>
    rw [settled] at h
    rw [List.any_cons]
    cases hb : (e.1 == pid) with
    | true => simp [hb]
    | false =>
      simp only [List.find?, hb] at h
      simp only [hb, Bool.false_or]
      exact ih (by rw [settled]; exact h)

theorem settled_settleOpt_resolved (log : List (Nat × PSettle)) (pid : Nat)
    (pid? : Option Nat) (o : PSettle)
    (h : settled log pid = some .resolved) :
    settled (settleOpt log pid? o) pid = some .resolved := by
  cases pid? with
  | none => exact h
  | some q =>
    rw [settleOpt, settle]
    split_ifs with hq
    · exact h
    · have hb : (q == pid) = false := by
        cases hbe : (q == pid) with
        | false => rfl
        | true =>
          exfalso
          apply hq
          have hqp : q = pid := eq_of_beq hbe
          subst hqp
          exact settled_mem_any log q _ h
      rw [settled] at h ⊢
      simp only [List.find?, hb]
      exact h

/-- C5 counterexample: after a successful open, an error event followed
by the close event does NOT invoke the reconnect scheduler, although
auto-reconnect is on, shutdown has not begun and the retry counter is
below the ceiling — the error handler set the state to `ERROR`, so the
close sees a non-`CONNECTED` state: no timer is scheduled and no
`RECONNECTING` transition is notified, contradicting the claim that the
close drives reconnection because the role had been connected. -/
theorem error_then_close_no_reconnect :
    errorTrace.autoReconnect = true
    ∧ errorTrace.isDisconnecting = false
    ∧ errorTrace.pubReconnectAttempts < errorTrace.maxReconnectAttempts
    ∧ settled errorTrace.promiseLog 0 = some .resolved
    ∧ errorTrace.pubTimers = 0
    ∧ (step Event.pubClose errorTrace).1.pubTimers = 0
    ∧ (∀ n ∈ (step Event.pubClose errorTrace).2, n.1 ≠ ConnectionState.RECONNECTING) := by
  decide

/-- C5 (amended): a transport error after a successful open never rejects
the already-resolved connect promise (promises settle once) and surfaces
only as an `ERROR` notification; a subsequent close event drives
reconnection only when the role is still `CONNECTED` at close time — if
the error event preceded the close, the state is `ERROR` and the close
does not invoke the reconnect scheduler. -/
theorem post_open_error_observed_only (m : ClientModel) (msg : String) (pid : Nat) :
    (settled m.promiseLog pid = some .resolved →
      settled (handlePubError m msg).1.promiseLog pid = some .resolved
      ∧ settled (handleSubError m msg).1.promiseLog pid = some .resolved)
    ∧ (handlePubError m msg).2 = [(ConnectionState.ERROR, Role.publisher)]
    ∧ (handleSubError m msg).2 = [(ConnectionState.ERROR, Role.subscriber)]
    ∧ (m.pubState = ConnectionState.CONNECTED → m.autoReconnect = true →
        m.isDisconnecting = false → m.pubReconnectAttempts < m.maxReconnectAttempts →
        (handlePubClose m).1.pubTimers = m.pubTimers + 1
        ∧ (ConnectionState.RECONNECTING, Role.publisher) ∈ (handlePubClose m).2)
    ∧ (m.subState = ConnectionState.CONNECTED → m.autoReconnect = true →
        m.isDisconnecting = false → m.subReconnectAttempts < m.maxReconnectAttempts →
        (handleSubClose m).1.subTimers = m.subTimers + 1
        ∧ (ConnectionState.RECONNECTING, Role.subscriber) ∈ (handleSubClose m).2)
    ∧ (m.pubState = ConnectionState.ERROR →
        (handlePubClose m).1.pubTimers = m.pubTimers
        ∧ ∀ n ∈ (handlePubClose m).2, n.1 ≠ ConnectionState.RECONNECTING)
    ∧ (m.subState = ConnectionState.ERROR →
        (handleSubClose m).1.subTimers = m.subTimers
        ∧ ∀ n ∈ (handleSubClose m).2, n.1 ≠ ConnectionState.RECONNECTING) := by
  refine ⟨?_, by simp [handlePubError], by simp [handleSubError], ?_, ?_, ?_, ?_⟩
  · intro h
    constructor
    · rw [handlePubError_promiseLog]
      exact settled_settleOpt_resolved _ _ _ _ h
    · rw [handleSubError_promiseLog]
      exact settled_settleOpt_resolved _ _ _ _ h
  · intro h1 h2 h3 h4
    rw [handlePubClose_connected m h1]
    rw [if_pos ⟨h2, h3⟩, attemptReconnectPublisher]
    split_ifs with ha
    · simp [h3] at ha
      omega
    · simp
  · intro h1 h2 h3 h4
    rw [handleSubClose_connected m h1]
    rw [if_pos ⟨h2, h3⟩, attemptReconnectSubscriber]
    split_ifs with ha
    · simp [h3] at ha
      omega
    · simp
  · intro h1
    have := handlePubClose_spurious m (by simp [h1])
    exact ⟨this.1, fun n hn => (this.2.2 n hn).1⟩
  · intro h1
    have := handleSubClose_spurious m (by simp [h1])
    exact ⟨this.1, fun n hn => (this.2.2 n hn).1⟩

/-- Witness for C5's amended statement, at a connected client (the
still-connected close path) and an errored client (the close-after-error
path). -/
theorem post_open_error_observed_only_witness :
    (settled liveModel.promiseLog 0 = some .resolved
      ∧ liveModel.pubState = ConnectionState.CONNECTED
      ∧ liveModel.autoReconnect = true
      ∧ liveModel.isDisconnecting = false
      ∧ liveModel.pubReconnectAttempts < liveModel.maxReconnectAttempts
      ∧ errorStateModel.pubState = ConnectionState.ERROR)
    ∧ settled (handlePubError liveModel "late error").1.promiseLog 0 = some .resolved
    ∧ (handlePubClose liveModel).1.pubTimers = liveModel.pubTimers + 1
    ∧ (ConnectionState.RECONNECTING, Role.publisher) ∈ (handlePubClose liveModel).2
    ∧ (handlePubClose errorStateModel).1.pubTimers = errorStateModel.pubTimers := by
  have h1 := post_open_error_observed_only liveModel "late error" 0
  have h2 := post_open_error_observed_only errorStateModel "late error" 0
  refine ⟨by decide, (h1.1 (by decide)).1, ?_, ?_, ?_⟩
  · exact (h1.2.2.2.1 (by decide) (by decide) (by decide) (by decide)).1
  · exact (h1.2.2.2.1 (by decide) (by decide) (by decide) (by decide)).2
  · exact (h2.2.2.2.2.2.1 (by decide)).1

/-- C8: for every topic and every JSON payload value, the frame built by
`publish` (inner payload encoding wrapped in the JSON-encoded envelope),
dispatched through the subscriber's message handler (outer parse then
inner parse), delivers a payload structurally equal to the original under
the original topic, to exactly the registered callbacks. -/
theorem publish_dispatch_round_trip (reg : List (String × List Nat)) (t : String) (p : Json) :
    onMessage reg (publishFrame t p)
      = (listenersFor reg t ++ listenersFor reg TOPIC_ALL).map (fun cb => (cb, t, p)) :=
  onMessage_publishFrame reg t p

/-- C6: dispatching an envelope for a specific topic that has registered
callbacks, while the wildcard topic also has registered callbacks,
invokes the specific-topic callbacks first and then the wildcard
callbacks, each registration exactly once, in registration order. -/
theorem dispatch_order_specific_then_wildcard (reg : List (String × List Nat))
    (t : String) (p : Json)
    (ht : t ≠ TOPIC_ALL)
    (hspec : listenersFor reg t ≠ [])
    (hwild : listenersFor reg TOPIC_ALL ≠ []) :
    ((onMessage reg (publishFrame t p)).map (fun i => i.1)
        = listenersFor reg t ++ listenersFor reg TOPIC_ALL)
    ∧ (∀ cb : Nat, ((onMessage reg (publishFrame t p)).map (fun i => i.1)).count cb
        = (listenersFor reg t).count cb + (listenersFor reg TOPIC_ALL).count cb) := by
  rw [onMessage_publishFrame reg t p]
  constructor
  · simp [Function.comp_def]
  · intro cb
    simp [Function.comp_def, List.count_append]

/-- Witness for C6 at a concrete registry and envelope. -/
theorem dispatch_order_specific_then_wildcard_witness :
    ("updates" ≠ TOPIC_ALL
      ∧ listenersFor regW "updates" ≠ []
      ∧ listenersFor regW TOPIC_ALL ≠ [])
    ∧ ((onMessage regW (publishFrame "updates" (.obj [("id", .num 7)]))).map (fun i => i.1)
        = listenersFor regW "updates" ++ listenersFor regW TOPIC_ALL) := by
  have h := dispatch_order_specific_then_wildcard regW "updates" (.obj [("id", .num 7)])
    (by decide) (by decide) (by decide)
  exact ⟨⟨by decide, by decide, by decide⟩, h.1⟩

/-- C7: within one dispatch, every callback runs inside its own
`try`/`catch` isolation boundary: whatever the callbacks' behaviors
(including thrown errors), every registered callback for the dispatch is
invoked exactly once, in order, no error escapes the loop, and the
resulting invocation record does not depend on which callbacks threw. -/
theorem callback_failure_isolated (run : Nat → Except String Unit) (cbs : List Nat) :
    dispatchLoop run cbs = .ok cbs := by
  induction cbs with
  | nil => rfl
  | cons cb rest ih =>
    rw [dispatchLoop]
    rw [show invokeIsolated run cb = .ok () from by
      rw [invokeIsolated]
      cases run cb <;> rfl]
    rw [ih]
    rfl

/-- C10: `subscribe` is atomic with respect to connection failure — when
the subscriber connection attempt rejects, `subscribe` rejects with that
same error and the topic registry is exactly what it was before the
call; only when the attempt resolves is the callback appended, under each
normalized topic, to the end of the topic's registration list. -/
theorem subscribe_atomic_on_connect_failure (reg : List (String × List Nat))
    (cb : Nat) (topics : Option (List String)) :
    (∀ e, subscribeRun reg (.error e) cb topics = (reg, some e))
    ∧ (subscribeRun reg (.ok ()) cb topics).2 = none
    ∧ ∀ t', listenersFor (subscribeRun reg (.ok ()) cb topics).1 t'
        = listenersFor reg t'
          ++ List.replicate ((normalizeTopics topics).count t') cb := by
  refine ⟨fun e => rfl, rfl, fun t' => ?_⟩
  exact listenersFor_foldl cb (normalizeTopics topics) reg t'

/-- C9: the `ConnectionState` enum comprises exactly the six values
`DISCONNECTED`, `CONNECTING`, `CONNECTED`, `RECONNECTING`,
`DISCONNECTING`, `ERROR` (exhaustive and pairwise distinct), and during
shutdown each role that holds a live transport handle transitions to
`DISCONNECTING`, observable through the state-change notifier. -/
theorem connection_state_enum_and_shutdown (m : ClientModel) (p s : Bool)
    (hp : m.pubSocket ≠ none) (hs : m.subSocket ≠ none) :
    (∀ st : ConnectionState,
        st = ConnectionState.DISCONNECTED ∨ st = ConnectionState.CONNECTING
        ∨ st = ConnectionState.CONNECTED ∨ st = ConnectionState.RECONNECTING
        ∨ st = ConnectionState.DISCONNECTING ∨ st = ConnectionState.ERROR)
    ∧ ([ConnectionState.DISCONNECTED, ConnectionState.CONNECTING,
        ConnectionState.CONNECTED, ConnectionState.RECONNECTING,
        ConnectionState.DISCONNECTING, ConnectionState.ERROR]
          : List ConnectionState).Nodup
    ∧ (ConnectionState.DISCONNECTING, Role.publisher) ∈ (disconnectModel m p s).2
    ∧ (ConnectionState.DISCONNECTING, Role.subscriber) ∈ (disconnectModel m p s).2 := by
  refine ⟨fun st => by cases st <;> simp, by decide, ?_, ?_⟩
  · rw [disconnectModel]
    repeat' split
    all_goals simp_all [handlePubClose_not_connected, handleSubClose_not_connected]
  · rw [disconnectModel]
    repeat' split
    all_goals simp_all [handlePubClose_not_connected, handleSubClose_not_connected]

/-- Witness for C9 at a connected client. -/
theorem connection_state_enum_and_shutdown_witness :
    (liveModel.pubSocket ≠ none ∧ liveModel.subSocket ≠ none)
    ∧ (ConnectionState.DISCONNECTING, Role.publisher) ∈ (disconnectModel liveModel true true).2
    ∧ (ConnectionState.DISCONNECTING, Role.subscriber)
        ∈ (disconnectModel liveModel true true).2 := by
  have h := connection_state_enum_and_shutdown liveModel true true (by decide) (by decide)
  exact ⟨⟨by decide, by decide⟩, h.2.2.1, h.2.2.2⟩

end Mcast
